import Mathlib

/-!
# Scheduling-waste metrics reporter (`internal/metrics/waste.go`)

A shallow embedding of the waste metrics reporter of the Spark scheduler
extender: the per-pod timing records, the event handlers that maintain
them, the classifier run when a pod is observed scheduled, and the
periodic sweep of the record cache.

Conventions of the embedding:

* Go `time.Time` is an instant, counted in nanoseconds from the zero time
  (January 1, year 1, 00:00:00 UTC); wall-clock and monotonic readings are
  taken to agree.  `time.Duration` is a signed 64-bit nanosecond count, and
  `Time.Sub` saturates at its bounds as the Go library documents.
* `time.Now()` is an argument of every handler that reads the clock.
* The reporter is passed explicitly.  The logger and the metrics registry
  reached through `ctx` are two append-only lists inside it.
* Each handler holds the reporter lock for its whole body, so a handler is
  one atomic step; the lock itself is not represented.
* The map `schedulingMetricInfoByPod` is an association list with unique
  keys; the order of its entries stands for the iteration order of the Go
  map, which the language leaves unspecified.
* Tags come from `github.com/palantir/pkg/metrics`.  `MustNewTag` follows
  the rules that library documents for a tag: key and value are not empty,
  key, colon and value take at most 200 bytes, upper case becomes lower
  case, and every character that is not a letter `a`-`z`, a digit or one of
  `_ - : . /` becomes an underscore.  It panics where `NewTag` returns an
  error.
* `onPodScheduled` builds a tag from a recorded outcome while it runs, so it
  can panic; it returns a `Completion`, which keeps the reporter as the call
  left it.  A panic ends the execution of the reporter.
-/

namespace WasteMetrics

/-! ## Go `time` -/

/-! A Go `time.Duration` is a count of nanoseconds held in an `int64`.  It
is an `Int` here, and `Time.Sub`, the only operation of the reporter that
produces one, keeps it between `minDuration` and `maxDuration`. -/

/-- Smallest `time.Duration`, `-1 << 63`. -/
def minDuration : Int := -(2 ^ 63)

/-- Largest `time.Duration`, `1<<63 - 1`. -/
def maxDuration : Int := 2 ^ 63 - 1

/-- Go `time.Second`. -/
def Second : Int := 1000000000

/-- Go `time.Minute`. -/
def Minute : Int := 60 * Second

/-- Go `time.Hour`. -/
def Hour : Int := 60 * Minute

/-- Go `time.Time`: nanoseconds elapsed since the zero time. -/
structure Time where
  nanos : Int
  deriving DecidableEq, Repr

namespace Time

/-- The zero value `time.Time{}`. -/
def zero : Time := ⟨0⟩

/-- Go `Time.IsZero`: the instant is January 1, year 1, 00:00:00 UTC. -/
def IsZero (t : Time) : Bool := t.nanos == 0

/-- Go `Time.After`. -/
def After (t u : Time) : Bool := decide (u.nanos < t.nanos)

/-- Go `Time.Before`. -/
def Before (t u : Time) : Bool := decide (t.nanos < u.nanos)

/-- Go `Time.Add`. -/
def Add (t : Time) (d : Int) : Time := ⟨t.nanos + d⟩

/-- Go `Time.Sub`: the duration `t - u`, replaced by the largest (smallest)
duration when the difference does not fit in one. -/
def Sub (t u : Time) : Int :=
  if maxDuration < t.nanos - u.nanos then maxDuration
  else if t.nanos - u.nanos < minDuration then minDuration
  else t.nanos - u.nanos

/-- Whether `t` can be a value of `time.Now()` in a process started at
`started`: such a value carries a monotonic reading, the number of
nanoseconds since the start of the process, held in an `int64`. -/
def isReading (started t : Time) : Bool :=
  decide (started.nanos ≤ t.nanos) && decide (t.nanos - started.nanos ≤ maxDuration)

end Time

/-! ## Kubernetes objects, as far as the reporter reads them -/

/-- The part of `v1.PodSpec` kept in the model. -/
structure PodSpec where
  NodeSelector : List (String × String)
  deriving DecidableEq, Repr

/-- The fields of `v1.Pod` the reporter reads. -/
structure Pod where
  Namespace : String
  Name : String
  CreationTimestamp : Time
  Spec : PodSpec
  deriving DecidableEq, Repr

/-- The fields of `v1alpha1.Demand` the reporter reads. -/
structure Demand where
  Namespace : String
  Name : String
  CreationTimestamp : Time
  deriving DecidableEq, Repr

/-- Dynamic content of the `interface{}` value an informer hands to a
handler. -/
inductive Obj where
  | pod (p : Pod)
  | demand (d : Demand)
  | tombstone (inner : Obj)
  | other (description : String)
  deriving DecidableEq, Repr

/-! ## Metrics and log sinks -/

/-- A `metrics.Tag` of the library `github.com/palantir/pkg/metrics`: its
normalised key and value. -/
structure Tag where
  key : String
  value : String
  deriving DecidableEq, Repr

/-- What the tag library does to one character of a key or value: an upper
case letter becomes lower case; a lower case letter, a digit, an underscore,
a minus, a colon, a period and a slash are kept; every other character
becomes an underscore. -/
def normalizeTagChar (c : Char) : Char :=
  if c.isUpper then c.toLower
  else if c.isLower || c.isDigit || c == '_' || c == '-' || c == ':' || c == '.' || c == '/'
  then c
  else '_'

/-- Normalisation of a tag key or value by the tag library. -/
def normalizeTag (s : String) : String := String.mk (s.data.map normalizeTagChar)

/-- Go `metrics.MustNewTag`; `none` stands for its panic.  It panics when
`metrics.NewTag` returns an error: the key is empty, the value is empty, or
key, colon and value take more than 200 bytes together.  Otherwise the tag
holds the normalised key and value. -/
def MustNewTag (k v : String) : Option Tag :=
  if k = "" then none
  else if v = "" then none
  else if 200 < k.utf8ByteSize + v.utf8ByteSize + 1 then none
  else some ⟨normalizeTag k, normalizeTag v⟩

/-- Go `Tag.Value`. -/
def Tag.Value (t : Tag) : String := t.value

/-- One `Histogram(name, tags...).Update(value)` call on the registry. -/
structure HistogramUpdate where
  name : String
  tags : List Tag
  value : Int
  deriving DecidableEq, Repr

/-- Severity of a service log line. -/
inductive Level where
  | info
  | warn
  | error
  deriving DecidableEq, Repr

/-- Value of a `svc1log.SafeParam`. -/
inductive ParamValue where
  | str (s : String)
  | dur (d : Int)
  deriving DecidableEq, Repr

/-- One service log line. -/
structure LogEntry where
  level : Level
  message : String
  params : List (String × ParamValue)
  deriving DecidableEq, Repr

/-! ## Declarations of the repository used by `waste.go` and defined in
other files -/

/-- Functions and constants that `waste.go` takes from the rest of the
repository.  They are parameters of the embedding. -/
structure Externals where
  /-- `utils.PodName`: name of the pod a demand was created for. -/
  PodName : Demand → String
  /-- `utils.GetPodFromObjectOrTombstone`; `none` is the `ok = false` result. -/
  GetPodFromObjectOrTombstone : Obj → Option Pod
  /-- `internal.FindInstanceGroupFromPodSpec`. -/
  FindInstanceGroupFromPodSpec : PodSpec → String → String × Bool
  /-- `InstanceGroupTag`, with its context argument left out. -/
  InstanceGroupTag : String → Tag
  /-- Metric name `schedulingWaste`. -/
  schedulingWaste : String
  /-- Metric name `schedulingWastePerInstanceGroup`. -/
  schedulingWastePerInstanceGroup : String
  /-- Tag key `schedulingWasteTypeTagName`. -/
  schedulingWasteTypeTagName : String
  /-- The package was initialised: `metrics.MustNewTag` built the tags of the
  four package-level variables of `waste.go`.  A panic there ends the program
  when the package is loaded, before any reporter exists. -/
  initialised :
    (MustNewTag schedulingWasteTypeTagName "before-demand-creation").isSome = true ∧
    (MustNewTag schedulingWasteTypeTagName "after-demand-fulfilled-no-failures").isSome
      = true ∧
    (MustNewTag schedulingWasteTypeTagName "after-demand-fulfilled-last-failure").isSome
      = true ∧
    (MustNewTag schedulingWasteTypeTagName "total-time-no-demand").isSome = true

/-! ## Data model of `waste.go` -/

/-- Constant `demandFulfilledAgeCleanUp = 6 * time.Hour`. -/
def demandFulfilledAgeCleanUp : Int := 6 * Hour

/-- Go `tagInfo`. -/
structure tagInfo where
  tag : Tag
  slowLogThreshold : Int
  deriving DecidableEq, Repr

/-- Go `failedSchedulingAttemptInfo`. -/
structure failedSchedulingAttemptInfo where
  attemptTime : Time
  attemptOutcome : String
  deriving DecidableEq, Repr

/-- Go `schedulingMetricInfo`. -/
structure schedulingMetricInfo where
  lastFailedSchedulingAttemptInfo : failedSchedulingAttemptInfo
  demandFulfilledTime : Time
  demandCreationTime : Time
  deriving DecidableEq, Repr

/-- Go `podKey`. -/
structure podKey where
  Namespace : String
  Name : String
  deriving DecidableEq, Repr

/-- Go `podFailedSchedulingAttempt`. -/
structure podFailedSchedulingAttempt where
  podKey : podKey
  failedSchedulingAttemptInfo : failedSchedulingAttemptInfo
  deriving DecidableEq, Repr

/-- Go `schedulingMetricInfoByPod`, a `map[podKey]schedulingMetricInfo`. -/
abbrev schedulingMetricInfoByPod := AList (fun _ : podKey => schedulingMetricInfo)

/-- Zero value of `failedSchedulingAttemptInfo`. -/
def failedSchedulingAttemptInfo.zero : failedSchedulingAttemptInfo := ⟨Time.zero, ""⟩

/-- Zero value of `schedulingMetricInfo`. -/
def schedulingMetricInfo.zero : schedulingMetricInfo :=
  ⟨failedSchedulingAttemptInfo.zero, Time.zero, Time.zero⟩

/-- Go two-result map index `info, ok := m[key]`: the zero value and `false`
when the key is absent. -/
def schedulingMetricInfoByPod.get (m : schedulingMetricInfoByPod) (key : podKey) :
    schedulingMetricInfo × Bool :=
  match m.lookup key with
  | some info => (info, true)
  | none => (schedulingMetricInfo.zero, false)

/-- Capacity of the `failedSchedulingAttempts` channel made by
`StartSchedulingOverheadMetrics`. -/
def failedSchedulingAttemptsCapacity : Nat := 100

/-- Go `wasteMetricsReporter`, with the sinks behind `ctx` made explicit. -/
structure wasteMetricsReporter where
  info : schedulingMetricInfoByPod
  instanceGroupLabel : String
  /-- Events buffered in the channel, oldest first. -/
  failedSchedulingAttempts : List podFailedSchedulingAttempt
  /-- Lines written to the logger of `ctx`, oldest first. -/
  logs : List LogEntry
  /-- Updates made on the registry of `ctx`, oldest first. -/
  registry : List HistogramUpdate

/-- How a call of a handler ends: it returns, or it panics; either way with
the reporter as the call left it. -/
inductive Completion where
  | returned (r : wasteMetricsReporter)
  | panicked (r : wasteMetricsReporter)

/-- The reporter at the end of the call. -/
def Completion.reporter : Completion → wasteMetricsReporter
  | Completion.returned r => r
  | Completion.panicked r => r

/-- Whether the call ended in a panic. -/
def Completion.isPanic : Completion → Bool
  | Completion.returned _ => false
  | Completion.panicked _ => true

/-- The reporter built by `StartSchedulingOverheadMetrics`. -/
def newReporter (instanceGroupLabel : String) : wasteMetricsReporter :=
  { info := ∅, instanceGroupLabel := instanceGroupLabel,
    failedSchedulingAttempts := [], logs := [], registry := [] }

section Handlers

variable (ext : Externals)

/-- Go `beforeDemandCreation`, as built when the package is loaded. -/
def beforeDemandCreation : tagInfo :=
  { tag := (MustNewTag ext.schedulingWasteTypeTagName "before-demand-creation").get
      ext.initialised.1,
    slowLogThreshold := 1 * Minute }

/-- Go `afterDemandFulfilledNoFailures`, as built when the package is loaded. -/
def afterDemandFulfilledNoFailures : tagInfo :=
  { tag := (MustNewTag ext.schedulingWasteTypeTagName
      "after-demand-fulfilled-no-failures").get ext.initialised.2.1,
    slowLogThreshold := 1 * Minute }

/-- Go `afterDemandFulfilledLastFailure`, as built when the package is loaded. -/
def afterDemandFulfilledLastFailure : tagInfo :=
  { tag := (MustNewTag ext.schedulingWasteTypeTagName
      "after-demand-fulfilled-last-failure").get ext.initialised.2.2.1,
    slowLogThreshold := 1 * Minute }

/-- Go `totalTimeNoDemand`, as built when the package is loaded. -/
def totalTimeNoDemand : tagInfo :=
  { tag := (MustNewTag ext.schedulingWasteTypeTagName "total-time-no-demand").get
      ext.initialised.2.2.2,
    slowLogThreshold := 10 * Minute }

/-- Go `getTagInfoForFailureAfterDemandFulfilled`; `none` stands for the panic
of `metrics.MustNewTag`, which is here called while a handler runs. -/
def getTagInfoForFailureAfterDemandFulfilled (outcome : String) : Option tagInfo :=
  match MustNewTag ext.schedulingWasteTypeTagName
      ("after-demand-fulfilled-failure-" ++ outcome) with
  | none => none
  | some tag => some { tag := tag, slowLogThreshold := 1 * Minute }

/-- Go `wasteMetricsReporter.markAndSlowLog`. -/
def markAndSlowLog (r : wasteMetricsReporter) (pod : Pod) (tag : tagInfo)
    (duration : Int) : wasteMetricsReporter :=
  let instanceGroup := (ext.FindInstanceGroupFromPodSpec pod.Spec r.instanceGroupLabel).1
  let r1 : wasteMetricsReporter :=
    if tag.slowLogThreshold < duration then
      { r with logs := r.logs ++
          [{ level := Level.info
             message := "pod wait time is above threshold"
             params := [("podNamespace", ParamValue.str pod.Namespace),
                        ("podName", ParamValue.str pod.Name),
                        ("instanceGroup", ParamValue.str instanceGroup),
                        ("waitType", ParamValue.str tag.tag.Value),
                        ("duration", ParamValue.dur duration)] }] }
    else r
  { r1 with registry := r1.registry ++
      [{ name := ext.schedulingWaste, tags := [tag.tag], value := duration },
       { name := ext.schedulingWastePerInstanceGroup,
         tags := [tag.tag, ext.InstanceGroupTag instanceGroup], value := duration }] }

/-- Go `wasteMetricsReporter.MarkFailedSchedulingAttempt`: a send on the
buffered channel that does not wait; `now` is the value of `time.Now()`. -/
def MarkFailedSchedulingAttempt (r : wasteMetricsReporter) (pod : Pod) (outcome : String)
    (now : Time) : wasteMetricsReporter :=
  let schedulingAttemptInfo : podFailedSchedulingAttempt :=
    { podKey := podKey.mk pod.Namespace pod.Name,
      failedSchedulingAttemptInfo := failedSchedulingAttemptInfo.mk now outcome }
  if r.failedSchedulingAttempts.length < failedSchedulingAttemptsCapacity then
    { r with failedSchedulingAttempts := r.failedSchedulingAttempts ++ [schedulingAttemptInfo] }
  else
    { r with logs := r.logs ++
        [{ level := Level.warn
           message := "Failed scheduling attempts channel full. Dropping event from waste scheduling reporter"
           params := [("podNamespace", ParamValue.str pod.Namespace),
                      ("Name", ParamValue.str pod.Name),
                      ("outcome", ParamValue.str outcome)] }] }

/-- Go `wasteMetricsReporter.processFailedSchedulingAttemptEvent`. -/
def processFailedSchedulingAttemptEvent (r : wasteMetricsReporter)
    (event : podFailedSchedulingAttempt) : wasteMetricsReporter :=
  let (info, ok) := r.info.get event.podKey
  if ok then
    let updated : schedulingMetricInfo :=
      { lastFailedSchedulingAttemptInfo := event.failedSchedulingAttemptInfo,
        demandCreationTime := info.demandCreationTime,
        demandFulfilledTime := info.demandFulfilledTime }
    { r with info := r.info.insert event.podKey updated }
  else
    let updated : schedulingMetricInfo :=
      { lastFailedSchedulingAttemptInfo := event.failedSchedulingAttemptInfo,
        demandCreationTime := Time.zero,
        demandFulfilledTime := Time.zero }
    { r with info := r.info.insert event.podKey updated }

/-- Go `wasteMetricsReporter.onPodScheduled`; `now` is the value of
`time.Now()`, read once on every path.  The call of
`getTagInfoForFailureAfterDemandFulfilled` is evaluated after the first
`markAndSlowLog` and before the second, so its panic leaves the reporter as
the first one wrote it. -/
def onPodScheduled (r : wasteMetricsReporter) (pod : Pod) (now : Time) : Completion :=
  let (info, ok) := r.info.get (podKey.mk pod.Namespace pod.Name)
  if !ok || info.demandCreationTime.IsZero then
    Completion.returned
      (markAndSlowLog ext r pod (totalTimeNoDemand ext) (now.Sub pod.CreationTimestamp))
  else
    let r1 := markAndSlowLog ext r pod (beforeDemandCreation ext)
      (info.demandCreationTime.Sub pod.CreationTimestamp)
    if !info.demandFulfilledTime.IsZero then
      if !info.lastFailedSchedulingAttemptInfo.attemptTime.IsZero
          && info.lastFailedSchedulingAttemptInfo.attemptTime.After info.demandFulfilledTime then
        match getTagInfoForFailureAfterDemandFulfilled ext
            info.lastFailedSchedulingAttemptInfo.attemptOutcome with
        | none => Completion.panicked r1
        | some tag =>
          let r2 := markAndSlowLog ext r1 pod tag
            (info.lastFailedSchedulingAttemptInfo.attemptTime.Sub info.demandFulfilledTime)
          Completion.returned
            (markAndSlowLog ext r2 pod (afterDemandFulfilledLastFailure ext)
              (now.Sub info.lastFailedSchedulingAttemptInfo.attemptTime))
      else
        Completion.returned
          (markAndSlowLog ext r1 pod (afterDemandFulfilledNoFailures ext)
            (now.Sub info.demandFulfilledTime))
    else Completion.returned r1

/-- Go `wasteMetricsReporter.onDemandFulfilled`; `now` is the value of
`time.Now()`. -/
def onDemandFulfilled (r : wasteMetricsReporter) (demand : Demand) (now : Time) :
    wasteMetricsReporter :=
  let podKey := podKey.mk demand.Namespace (ext.PodName demand)
  let (info, ok) := r.info.get podKey
  if ok then
    let updated : schedulingMetricInfo :=
      { lastFailedSchedulingAttemptInfo := info.lastFailedSchedulingAttemptInfo,
        demandFulfilledTime := now,
        demandCreationTime := demand.CreationTimestamp }
    { r with info := r.info.insert podKey updated }
  else
    let updated : schedulingMetricInfo :=
      { lastFailedSchedulingAttemptInfo := failedSchedulingAttemptInfo.zero,
        demandFulfilledTime := now,
        demandCreationTime := demand.CreationTimestamp }
    { r with info := r.info.insert podKey updated }

/-- Go `wasteMetricsReporter.onDemandCreated`. -/
def onDemandCreated (r : wasteMetricsReporter) (obj : Obj) : wasteMetricsReporter :=
  match obj with
  | Obj.demand demand =>
    let podKey := podKey.mk demand.Namespace (ext.PodName demand)
    let (info, ok) := r.info.get podKey
    if ok then
      let updated : schedulingMetricInfo :=
        { lastFailedSchedulingAttemptInfo := info.lastFailedSchedulingAttemptInfo,
          demandFulfilledTime := Time.zero,
          demandCreationTime := demand.CreationTimestamp }
      { r with info := r.info.insert podKey updated }
    else
      let updated : schedulingMetricInfo :=
        { lastFailedSchedulingAttemptInfo := failedSchedulingAttemptInfo.zero,
          demandFulfilledTime := Time.zero,
          demandCreationTime := demand.CreationTimestamp }
      { r with info := r.info.insert podKey updated }
  | _ =>
    { r with logs := r.logs ++
        [{ level := Level.error, message := "failed to parse obj as demand", params := [] }] }

/-- Go `wasteMetricsReporter.onPodDeleted`. -/
def onPodDeleted (r : wasteMetricsReporter) (obj : Obj) : wasteMetricsReporter :=
  match ext.GetPodFromObjectOrTombstone obj with
  | none =>
    { r with logs := r.logs ++
        [{ level := Level.warn, message := "failed to parse object as pod, skipping",
           params := [] }] }
  | some pod =>
    let podKey := podKey.mk pod.Namespace pod.Name
    { r with info := r.info.erase podKey }

/-- Body of the loop of `cleanupMetricCache` for one entry of the map;
`now key` is the value `time.Now()` returns while `key` is visited. -/
def cleanupMetricCacheStep (now : podKey → Time) (r : wasteMetricsReporter)
    (entry : Sigma (fun _ : podKey => schedulingMetricInfo)) : wasteMetricsReporter :=
  let key := entry.1
  let info := entry.2
  if (info.demandFulfilledTime.Add demandFulfilledAgeCleanUp).Before (now key) then
    { r with
      logs := r.logs ++
        [{ level := Level.info
           message := "deleting demand from scheduling waste reporter, pod was not scheduled for 6 hours"
           params := [("podNamespace", ParamValue.str key.Namespace),
                      ("podNamespace", ParamValue.str key.Name)] }],
      info := r.info.erase key }
  else r

/-- Go `wasteMetricsReporter.cleanupMetricCache`: the loop ranges over the
entries the map holds on entry, and each visit deletes at most the visited key. -/
def cleanupMetricCache (r : wasteMetricsReporter) (now : podKey → Time) :
    wasteMetricsReporter :=
  r.info.entries.foldl (cleanupMetricCacheStep now) r

/-- The two registry updates `markAndSlowLog` makes for one sample: the
histogram tagged by waste type alone, then the histogram tagged by waste
type and instance group (the last two statements of `markAndSlowLog`). -/
def sampleUpdates (instanceGroupLabel : String) (pod : Pod) (tag : Tag)
    (duration : Int) : List HistogramUpdate :=
  [{ name := ext.schedulingWaste, tags := [tag], value := duration },
   { name := ext.schedulingWastePerInstanceGroup,
     tags := [tag, ext.InstanceGroupTag
       (ext.FindInstanceGroupFromPodSpec pod.Spec instanceGroupLabel).1],
     value := duration }]

/-- The log lines `markAndSlowLog` writes for one sample: the line
"pod wait time is above threshold" when the duration is greater than the
threshold of the tag, and none otherwise (the `if` that opens
`markAndSlowLog`). -/
def slowLogLines (instanceGroupLabel : String) (pod : Pod) (tag : tagInfo)
    (duration : Int) : List LogEntry :=
  if tag.slowLogThreshold < duration then
    [{ level := Level.info
       message := "pod wait time is above threshold"
       params := [("podNamespace", ParamValue.str pod.Namespace),
                  ("podName", ParamValue.str pod.Name),
                  ("instanceGroup", ParamValue.str
                    (ext.FindInstanceGroupFromPodSpec pod.Spec instanceGroupLabel).1),
                  ("waitType", ParamValue.str tag.tag.Value),
                  ("duration", ParamValue.dur duration)] }]
  else []

end Handlers

/-- Waste-type tag of a registry update: the first tag of the call. -/
def HistogramUpdate.wasteTag (u : HistogramUpdate) : Option Tag := u.tags.head?

/-! ## The reporter as a transition system

`StartSchedulingOverheadMetrics` registers the handlers with the informers
and starts the sweep and consumer goroutines.  Since every handler runs
under the reporter lock, an execution is a sequence of the events below. -/

/-- One iteration of the consumer goroutine of
`StartSchedulingOverheadMetrics`: it receives the oldest buffered event and
hands it to `processFailedSchedulingAttemptEvent`; with an empty channel it
waits, which is no step. -/
def consumeFailedSchedulingAttempt (r : wasteMetricsReporter) : wasteMetricsReporter :=
  match r.failedSchedulingAttempts with
  | [] => r
  | event :: rest =>
    processFailedSchedulingAttemptEvent { r with failedSchedulingAttempts := rest } event

/-- The events that drive the reporter. -/
inductive Event where
  /-- Demand informer `AddFunc`. -/
  | demandCreated (obj : Obj)
  /-- Demand informer `UpdateFunc`, for a demand that became fulfilled. -/
  | demandFulfilled (demand : Demand) (now : Time)
  /-- A call of `MarkFailedSchedulingAttempt`. -/
  | markFailedSchedulingAttempt (pod : Pod) (outcome : String) (now : Time)
  /-- The consumer goroutine takes one event from the channel. -/
  | consumeFailedSchedulingAttempt
  /-- A call of `processFailedSchedulingAttemptEvent` with a given event. -/
  | failedSchedulingAttempt (event : podFailedSchedulingAttempt)
  /-- Pod informer `UpdateFunc`, for a pod that became scheduled. -/
  | podScheduled (pod : Pod) (now : Time)
  /-- Pod informer `DeleteFunc`. -/
  | podDeleted (obj : Obj)
  /-- A tick of the sweep goroutine. -/
  | cleanupTick (now : podKey → Time)

/-- The demand carried by the event, if any, has its creation timestamp set. -/
def Event.demandStamped : Event → Bool
  | Event.demandCreated (Obj.demand demand) => !demand.CreationTimestamp.IsZero
  | Event.demandFulfilled demand _ => !demand.CreationTimestamp.IsZero
  | _ => true

/-- Effect of one event on the reporter. -/
def step (ext : Externals) (r : wasteMetricsReporter) : Event → Completion
  | Event.demandCreated obj => Completion.returned (onDemandCreated ext r obj)
  | Event.demandFulfilled demand now =>
    Completion.returned (onDemandFulfilled ext r demand now)
  | Event.markFailedSchedulingAttempt pod outcome now =>
    Completion.returned (MarkFailedSchedulingAttempt r pod outcome now)
  | Event.consumeFailedSchedulingAttempt =>
    Completion.returned (consumeFailedSchedulingAttempt r)
  | Event.failedSchedulingAttempt event =>
    Completion.returned (processFailedSchedulingAttemptEvent r event)
  | Event.podScheduled pod now => onPodScheduled ext r pod now
  | Event.podDeleted obj => Completion.returned (onPodDeleted ext r obj)
  | Event.cleanupTick now => Completion.returned (cleanupMetricCache r now)

/-- Effect of a sequence of events, the first of the list first.  A panic is
not recovered by the reporter, so the events after it are not handled. -/
def run (ext : Externals) (r : wasteMetricsReporter) : List Event → Completion
  | [] => Completion.returned r
  | event :: rest =>
    match step ext r event with
    | Completion.returned r1 => run ext r1 rest
    | Completion.panicked r1 => Completion.panicked r1

/-- Every record of the map whose `demandFulfilledTime` is set has its
`demandCreationTime` set. -/
def schedulingMetricInfoByPod.fulfilledHaveCreation (m : schedulingMetricInfoByPod) : Prop :=
  ∀ (key : podKey) (info : schedulingMetricInfo), m.lookup key = some info →
    info.demandFulfilledTime.IsZero = false → info.demandCreationTime.IsZero = false

/-! ## Concrete inputs used to instantiate the theorems -/

namespace Example

/-- A choice of the external declarations: the demand `demand-pod-1` belongs
to the pod `pod-1` and any other demand carries the name of its pod, a pod
is recovered from a pod object or from a tombstone that holds one, and no
instance group is resolved. -/
def externals : Externals :=
  { PodName := fun d => if d.Name = "demand-pod-1" then "pod-1" else d.Name,
    GetPodFromObjectOrTombstone := fun o =>
      match o with
      | Obj.pod p => some p
      | Obj.tombstone (Obj.pod p) => some p
      | _ => none,
    FindInstanceGroupFromPodSpec := fun _ _ => ("", false),
    InstanceGroupTag := fun g =>
      match MustNewTag "instance-group" g with
      | some tag => tag
      | none => Tag.mk "instance-group" "unspecified",
    schedulingWaste := "scheduling.waste",
    schedulingWastePerInstanceGroup := "scheduling.waste.instancegroup",
    schedulingWasteTypeTagName := "wastetype",
    initialised := by decide }

/-- The instant 2026-05-28 20:26:40 UTC, which is 63 915 596 800 s after the
zero time. -/
def t0 : Time := ⟨63915596800000000000⟩

/-- Key of the example pod. -/
def key : podKey := ⟨"ns", "pod-1"⟩

/-- A pod created at `t0`. -/
def pod : Pod := ⟨"ns", "pod-1", t0, ⟨[]⟩⟩

/-- The demand of the example pod, created at `t0`. -/
def demand : Demand := ⟨"ns", "demand-pod-1", t0⟩

/-- A reporter whose store holds exactly one record, for the example pod. -/
def reporterWith (info : schedulingMetricInfo) : wasteMetricsReporter :=
  { info := (∅ : schedulingMetricInfoByPod).insert key info,
    instanceGroupLabel := "instance-group",
    failedSchedulingAttempts := [], logs := [], registry := [] }

/-- Record with only a failed attempt: no demand was seen. -/
def onlyFailure : schedulingMetricInfo :=
  { lastFailedSchedulingAttemptInfo := ⟨t0.Add (5 * Second), "failure-fit"⟩,
    demandFulfilledTime := Time.zero,
    demandCreationTime := Time.zero }

/-- Record of a demand created 30 s after the pod and not fulfilled. -/
def createdOnly : schedulingMetricInfo :=
  { lastFailedSchedulingAttemptInfo := failedSchedulingAttemptInfo.zero,
    demandFulfilledTime := Time.zero,
    demandCreationTime := t0.Add (30 * Second) }

/-- Record of a demand fulfilled after 2 min, the last failure being older. -/
def fulfilledNoFailureAfter : schedulingMetricInfo :=
  { lastFailedSchedulingAttemptInfo := ⟨t0.Add (1 * Minute), "failure-fit"⟩,
    demandFulfilledTime := t0.Add (2 * Minute),
    demandCreationTime := t0 }

/-- Record of a demand fulfilled after 2 min, with a failure 10 s later. -/
def fulfilledThenFailure : schedulingMetricInfo :=
  { lastFailedSchedulingAttemptInfo := ⟨t0.Add (2 * Minute + 10 * Second), "resourceQuota"⟩,
    demandFulfilledTime := t0.Add (2 * Minute),
    demandCreationTime := t0 }

/-- A failed attempt of the example pod 5 s after `t0`. -/
def failureAt5s : podFailedSchedulingAttempt :=
  { podKey := key,
    failedSchedulingAttemptInfo := ⟨t0.Add (5 * Second), "failure-fit"⟩ }

/-- A failed attempt of the example pod 9 s after `t0`. -/
def failureAt9s : podFailedSchedulingAttempt :=
  { podKey := key,
    failedSchedulingAttemptInfo := ⟨t0.Add (9 * Second), "failure-earlier-driver"⟩ }

/-- The demand of the example pod as an object without creation timestamp. -/
def unstampedDemand : Demand := ⟨"ns", "demand-pod-1", Time.zero⟩

/-- An execution: the demand of the example pod is created, a failed attempt
is handled, the demand is fulfilled, a second failed attempt is reported
through the channel and consumed, a sweep runs, the pod is observed
scheduled, and the demand is reported fulfilled once more. -/
def events : List Event :=
  [Event.demandCreated (Obj.demand demand),
   Event.failedSchedulingAttempt failureAt5s,
   Event.demandFulfilled demand (t0.Add (2 * Minute)),
   Event.markFailedSchedulingAttempt pod "failure-fit" (t0.Add (2 * Minute + 10 * Second)),
   Event.consumeFailedSchedulingAttempt,
   Event.cleanupTick (fun _ => t0.Add (3 * Minute)),
   Event.podScheduled pod (t0.Add (4 * Minute)),
   Event.demandFulfilled demand (t0.Add (5 * Minute))]

/-- An outcome label of 170 bytes: with the key `wastetype` and the prefix
`after-demand-fulfilled-failure-` its tag takes 211 bytes. -/
def longOutcome : String := String.mk (List.replicate 170 'x')

/-- An execution that ends with a record of the example pod whose last
failed attempt carries the long outcome: the demand is created and
fulfilled, then `MarkFailedSchedulingAttempt` is called with that outcome
and the consumer handles the event. -/
def oversizeEvents : List Event :=
  [Event.demandCreated (Obj.demand demand),
   Event.demandFulfilled demand (t0.Add (2 * Minute)),
   Event.markFailedSchedulingAttempt pod longOutcome (t0.Add (2 * Minute + 10 * Second)),
   Event.consumeFailedSchedulingAttempt]

end Example

/-! ## Basic facts -/

theorem Time.Sub_eq_of_fits (t u : Time) (hlo : minDuration ≤ t.nanos - u.nanos)
    (hhi : t.nanos - u.nanos ≤ maxDuration) : t.Sub u = t.nanos - u.nanos := by
  unfold Time.Sub
  rw [if_neg (not_lt.mpr hhi), if_neg (not_lt.mpr hlo)]

theorem Time.Sub_self (t : Time) : t.Sub t = 0 := by
  rw [Time.Sub_eq_of_fits] <;> simp [minDuration, maxDuration]

theorem Time.minDuration_le_Sub (t u : Time) : minDuration ≤ t.Sub u := by
  unfold Time.Sub minDuration maxDuration
  split_ifs <;> omega

theorem Time.Sub_le_maxDuration (t u : Time) : t.Sub u ≤ maxDuration := by
  unfold Time.Sub minDuration maxDuration
  split_ifs <;> omega

/-- Between two readings of the clock of one process `Time.Sub` is the exact
difference. -/
theorem Time.Sub_eq_of_isReading (started t u : Time) (ht : Time.isReading started t = true)
    (hu : Time.isReading started u = true) : t.Sub u = t.nanos - u.nanos := by
  simp only [Time.isReading, Bool.and_eq_true, decide_eq_true_eq] at ht hu
  apply Time.Sub_eq_of_fits
  · have h1 := ht.1
    have h2 := hu.2
    unfold minDuration
    unfold maxDuration at h2
    omega
  · have h1 := hu.1
    have h2 := ht.2
    unfold maxDuration at h2 ⊢
    omega

theorem get_of_lookup_none {m : schedulingMetricInfoByPod} {key : podKey}
    (h : m.lookup key = none) : m.get key = (schedulingMetricInfo.zero, false) := by
  simp [schedulingMetricInfoByPod.get, h]

theorem get_of_lookup_some {m : schedulingMetricInfoByPod} {key : podKey}
    {info : schedulingMetricInfo} (h : m.lookup key = some info) :
    m.get key = (info, true) := by
  simp [schedulingMetricInfoByPod.get, h]

/-! ## The tag library -/

theorem normalizeTag_append (a b : String) :
    normalizeTag (a ++ b) = normalizeTag a ++ normalizeTag b := by
  apply String.ext
  simp [normalizeTag, String.data_append]

theorem MustNewTag_of_isSome (k v : String) (h : (MustNewTag k v).isSome = true) :
    MustNewTag k v = some (Tag.mk (normalizeTag k) (normalizeTag v)) := by
  unfold MustNewTag at h ⊢
  split_ifs at h ⊢ <;> simp_all

theorem MustNewTag_get (k v : String) (h : (MustNewTag k v).isSome = true) :
    (MustNewTag k v).get h = Tag.mk (normalizeTag k) (normalizeTag v) := by
  apply Option.some.inj
  rw [Option.some_get]
  exact MustNewTag_of_isSome k v h

theorem key_ne_empty_of_isSome (k v : String) (h : (MustNewTag k v).isSome = true) :
    k ≠ "" := by
  intro hk
  simp [MustNewTag, hk] at h

theorem failurePrefix_append_ne_empty (outcome : String) :
    "after-demand-fulfilled-failure-" ++ outcome ≠ "" := by
  intro h
  have h2 := congrArg String.data h
  simp [String.data_append] at h2

theorem failureTag_ne_noFailures (k x : String) :
    Tag.mk k ("after-demand-fulfilled-failure-" ++ x) ≠
      Tag.mk k "after-demand-fulfilled-no-failures" := by
  intro h
  have h2 := congrArg (fun t => t.value.data) h
  simp [String.data_append] at h2

theorem failureTag_ne_lastFailure (k x : String) :
    Tag.mk k ("after-demand-fulfilled-failure-" ++ x) ≠
      Tag.mk k "after-demand-fulfilled-last-failure" := by
  intro h
  have h2 := congrArg (fun t => t.value.data) h
  simp [String.data_append] at h2

theorem failureTag_ne_beforeDemandCreation (k x : String) :
    Tag.mk k ("after-demand-fulfilled-failure-" ++ x) ≠ Tag.mk k "before-demand-creation" := by
  intro h
  have h2 := congrArg (fun t => t.value.data) h
  simp [String.data_append] at h2

theorem failureTag_ne_totalTimeNoDemand (k x : String) :
    Tag.mk k ("after-demand-fulfilled-failure-" ++ x) ≠ Tag.mk k "total-time-no-demand" := by
  intro h
  have h2 := congrArg (fun t => t.value.data) h
  simp [String.data_append] at h2

section HandlerFacts

variable (ext : Externals)

theorem beforeDemandCreation_eq :
    beforeDemandCreation ext =
      { tag := Tag.mk (normalizeTag ext.schedulingWasteTypeTagName) "before-demand-creation",
        slowLogThreshold := 1 * Minute } := by
  unfold beforeDemandCreation
  rw [MustNewTag_get]
  have h : normalizeTag "before-demand-creation" = "before-demand-creation" := by decide
  rw [h]

theorem afterDemandFulfilledNoFailures_eq :
    afterDemandFulfilledNoFailures ext =
      { tag := Tag.mk (normalizeTag ext.schedulingWasteTypeTagName)
          "after-demand-fulfilled-no-failures",
        slowLogThreshold := 1 * Minute } := by
  unfold afterDemandFulfilledNoFailures
  rw [MustNewTag_get]
  have h : normalizeTag "after-demand-fulfilled-no-failures" =
      "after-demand-fulfilled-no-failures" := by decide
  rw [h]

theorem afterDemandFulfilledLastFailure_eq :
    afterDemandFulfilledLastFailure ext =
      { tag := Tag.mk (normalizeTag ext.schedulingWasteTypeTagName)
          "after-demand-fulfilled-last-failure",
        slowLogThreshold := 1 * Minute } := by
  unfold afterDemandFulfilledLastFailure
  rw [MustNewTag_get]
  have h : normalizeTag "after-demand-fulfilled-last-failure" =
      "after-demand-fulfilled-last-failure" := by decide
  rw [h]

theorem totalTimeNoDemand_eq :
    totalTimeNoDemand ext =
      { tag := Tag.mk (normalizeTag ext.schedulingWasteTypeTagName) "total-time-no-demand",
        slowLogThreshold := 10 * Minute } := by
  unfold totalTimeNoDemand
  rw [MustNewTag_get]
  have h : normalizeTag "total-time-no-demand" = "total-time-no-demand" := by decide
  rw [h]

/-- The failure tag is built when key, colon and value take at most 200
bytes; its value is the prefix followed by the normalised outcome. -/
theorem getTagInfoForFailureAfterDemandFulfilled_of_fits (outcome : String)
    (h : ext.schedulingWasteTypeTagName.utf8ByteSize + 1 +
      ("after-demand-fulfilled-failure-" ++ outcome).utf8ByteSize ≤ 200) :
    getTagInfoForFailureAfterDemandFulfilled ext outcome =
      some { tag := Tag.mk (normalizeTag ext.schedulingWasteTypeTagName)
               ("after-demand-fulfilled-failure-" ++ normalizeTag outcome),
             slowLogThreshold := 1 * Minute } := by
  have hk : ext.schedulingWasteTypeTagName ≠ "" :=
    key_ne_empty_of_isSome _ _ ext.initialised.1
  have hp : normalizeTag "after-demand-fulfilled-failure-" =
      "after-demand-fulfilled-failure-" := by decide
  have hlen : ¬ 200 < ext.schedulingWasteTypeTagName.utf8ByteSize +
      ("after-demand-fulfilled-failure-" ++ outcome).utf8ByteSize + 1 := by omega
  unfold getTagInfoForFailureAfterDemandFulfilled MustNewTag
  rw [if_neg hk, if_neg (failurePrefix_append_ne_empty outcome), if_neg hlen,
    normalizeTag_append, hp]

/-- The call panics when key, colon and value take more than 200 bytes. -/
theorem getTagInfoForFailureAfterDemandFulfilled_of_not_fits (outcome : String)
    (h : 200 < ext.schedulingWasteTypeTagName.utf8ByteSize + 1 +
      ("after-demand-fulfilled-failure-" ++ outcome).utf8ByteSize) :
    getTagInfoForFailureAfterDemandFulfilled ext outcome = none := by
  have hk : ext.schedulingWasteTypeTagName ≠ "" :=
    key_ne_empty_of_isSome _ _ ext.initialised.1
  have hlen : 200 < ext.schedulingWasteTypeTagName.utf8ByteSize +
      ("after-demand-fulfilled-failure-" ++ outcome).utf8ByteSize + 1 := by omega
  unfold getTagInfoForFailureAfterDemandFulfilled MustNewTag
  rw [if_neg hk, if_neg (failurePrefix_append_ne_empty outcome), if_pos hlen]

theorem markAndSlowLog_registry (r : wasteMetricsReporter) (pod : Pod) (tag : tagInfo)
    (d : Int) :
    (markAndSlowLog ext r pod tag d).registry =
      r.registry ++ sampleUpdates ext r.instanceGroupLabel pod tag.tag d := by
  unfold markAndSlowLog sampleUpdates
  split_ifs <;> rfl

theorem markAndSlowLog_logs (r : wasteMetricsReporter) (pod : Pod) (tag : tagInfo)
    (d : Int) :
    (markAndSlowLog ext r pod tag d).logs =
      r.logs ++ slowLogLines ext r.instanceGroupLabel pod tag d := by
  unfold markAndSlowLog slowLogLines
  split_ifs <;> simp

theorem markAndSlowLog_info (r : wasteMetricsReporter) (pod : Pod) (tag : tagInfo)
    (d : Int) : (markAndSlowLog ext r pod tag d).info = r.info := by
  unfold markAndSlowLog
  split_ifs <;> rfl

theorem markAndSlowLog_instanceGroupLabel (r : wasteMetricsReporter) (pod : Pod)
    (tag : tagInfo) (d : Int) :
    (markAndSlowLog ext r pod tag d).instanceGroupLabel = r.instanceGroupLabel := by
  unfold markAndSlowLog
  split_ifs <;> rfl

theorem markAndSlowLog_failedSchedulingAttempts (r : wasteMetricsReporter)
    (pod : Pod) (tag : tagInfo) (d : Int) :
    (markAndSlowLog ext r pod tag d).failedSchedulingAttempts =
      r.failedSchedulingAttempts := by
  unfold markAndSlowLog
  split_ifs <;> rfl

theorem mem_sampleUpdates_wasteTag {label : String} {pod : Pod} {tag : Tag} {d : Int}
    {u : HistogramUpdate} (h : u ∈ sampleUpdates ext label pod tag d) :
    u.wasteTag = some tag := by
  simp only [sampleUpdates, List.mem_cons, List.mem_singleton, List.not_mem_nil, or_false] at h
  rcases h with h | h <;> subst h <;> rfl

end HandlerFacts

section StoreFacts

variable (ext : Externals)

theorem get_fst_of_lookup_none {m : schedulingMetricInfoByPod} {key : podKey}
    (h : m.lookup key = none) : (m.get key).1 = schedulingMetricInfo.zero := by
  rw [get_of_lookup_none h]

theorem get_fst_of_lookup_some {m : schedulingMetricInfoByPod} {key : podKey}
    {info : schedulingMetricInfo} (h : m.lookup key = some info) : (m.get key).1 = info := by
  rw [get_of_lookup_some h]

/-- Record stored by `onDemandCreated` under the key of the demand. -/
theorem onDemandCreated_lookup (r : wasteMetricsReporter) (demand : Demand) :
    (onDemandCreated ext r (Obj.demand demand)).info.lookup
        (podKey.mk demand.Namespace (ext.PodName demand)) =
      some { lastFailedSchedulingAttemptInfo :=
               (r.info.get (podKey.mk demand.Namespace
                 (ext.PodName demand))).1.lastFailedSchedulingAttemptInfo,
             demandFulfilledTime := Time.zero,
             demandCreationTime := demand.CreationTimestamp } := by
  cases hl : r.info.lookup (podKey.mk demand.Namespace (ext.PodName demand))
  · simp [onDemandCreated, get_of_lookup_none hl, AList.lookup_insert, schedulingMetricInfo.zero]
  · simp [onDemandCreated, get_of_lookup_some hl, AList.lookup_insert]

/-- Record stored by `onDemandFulfilled` under the key of the demand. -/
theorem onDemandFulfilled_lookup (r : wasteMetricsReporter) (demand : Demand) (now : Time) :
    (onDemandFulfilled ext r demand now).info.lookup
        (podKey.mk demand.Namespace (ext.PodName demand)) =
      some { lastFailedSchedulingAttemptInfo :=
               (r.info.get (podKey.mk demand.Namespace
                 (ext.PodName demand))).1.lastFailedSchedulingAttemptInfo,
             demandFulfilledTime := now,
             demandCreationTime := demand.CreationTimestamp } := by
  cases hl : r.info.lookup (podKey.mk demand.Namespace (ext.PodName demand))
  · simp [onDemandFulfilled, get_of_lookup_none hl, AList.lookup_insert, schedulingMetricInfo.zero]
  · simp [onDemandFulfilled, get_of_lookup_some hl, AList.lookup_insert]

/-- Record stored by `processFailedSchedulingAttemptEvent` under the key of
the event. -/
theorem processFailedSchedulingAttemptEvent_lookup (r : wasteMetricsReporter)
    (event : podFailedSchedulingAttempt) :
    (processFailedSchedulingAttemptEvent r event).info.lookup event.podKey =
      some { lastFailedSchedulingAttemptInfo := event.failedSchedulingAttemptInfo,
             demandFulfilledTime := (r.info.get event.podKey).1.demandFulfilledTime,
             demandCreationTime := (r.info.get event.podKey).1.demandCreationTime } := by
  cases hl : r.info.lookup event.podKey
  · simp [processFailedSchedulingAttemptEvent, get_of_lookup_none hl, AList.lookup_insert, schedulingMetricInfo.zero]
  · simp [processFailedSchedulingAttemptEvent, get_of_lookup_some hl, AList.lookup_insert]

theorem onDemandCreated_sinks (r : wasteMetricsReporter) (demand : Demand) :
    (onDemandCreated ext r (Obj.demand demand)).registry = r.registry ∧
      (onDemandCreated ext r (Obj.demand demand)).instanceGroupLabel =
        r.instanceGroupLabel := by
  cases hl : r.info.lookup (podKey.mk demand.Namespace (ext.PodName demand))
  · simp [onDemandCreated, get_of_lookup_none hl]
  · simp [onDemandCreated, get_of_lookup_some hl]

theorem onDemandFulfilled_sinks (r : wasteMetricsReporter) (demand : Demand) (now : Time) :
    (onDemandFulfilled ext r demand now).registry = r.registry ∧
      (onDemandFulfilled ext r demand now).instanceGroupLabel = r.instanceGroupLabel := by
  cases hl : r.info.lookup (podKey.mk demand.Namespace (ext.PodName demand))
  · simp [onDemandFulfilled, get_of_lookup_none hl]
  · simp [onDemandFulfilled, get_of_lookup_some hl]

theorem processFailedSchedulingAttemptEvent_sinks (r : wasteMetricsReporter)
    (event : podFailedSchedulingAttempt) :
    (processFailedSchedulingAttemptEvent r event).registry = r.registry ∧
      (processFailedSchedulingAttemptEvent r event).instanceGroupLabel =
        r.instanceGroupLabel := by
  cases hl : r.info.lookup event.podKey
  · simp [processFailedSchedulingAttemptEvent, get_of_lookup_none hl]
  · simp [processFailedSchedulingAttemptEvent, get_of_lookup_some hl]

theorem onPodDeleted_of_pod (r : wasteMetricsReporter) (obj : Obj) (pod : Pod)
    (h : ext.GetPodFromObjectOrTombstone obj = some pod) :
    onPodDeleted ext r obj =
      { r with info := r.info.erase (podKey.mk pod.Namespace pod.Name) } := by
  simp [onPodDeleted, h]

end StoreFacts

theorem cleanupMetricCacheStep_lookup (now : podKey → Time) (r : wasteMetricsReporter)
    (entry : Sigma (fun _ : podKey => schedulingMetricInfo)) (key : podKey) :
    (cleanupMetricCacheStep now r entry).info.lookup key =
      if entry.1 = key ∧
          (entry.2.demandFulfilledTime.Add demandFulfilledAgeCleanUp).Before (now entry.1)
            = true
      then none else r.info.lookup key := by
  unfold cleanupMetricCacheStep
  by_cases hb : (entry.2.demandFulfilledTime.Add demandFulfilledAgeCleanUp).Before
      (now entry.1) = true
  · by_cases hk : entry.1 = key
    · subst hk
      simp [hb, AList.lookup_erase]
    · have hk2 : key ≠ entry.1 := fun e => hk e.symm
      simp [hb, hk, AList.lookup_erase_ne hk2]
  · simp [hb]

/-- Store left by the loop of `cleanupMetricCache` run over a list of entries. -/
theorem cleanupMetricCache_foldl_lookup (now : podKey → Time)
    (entries : List (Sigma (fun _ : podKey => schedulingMetricInfo)))
    (r : wasteMetricsReporter) (key : podKey) :
    (entries.foldl (cleanupMetricCacheStep now) r).info.lookup key =
      if ∃ entry ∈ entries, entry.1 = key ∧
          (entry.2.demandFulfilledTime.Add demandFulfilledAgeCleanUp).Before (now entry.1)
            = true
      then none else r.info.lookup key := by
  induction entries generalizing r with
  | nil => simp
  | cons entry rest ih =>
    rw [List.foldl_cons, ih, cleanupMetricCacheStep_lookup]
    by_cases h1 : ∃ e ∈ rest, e.1 = key ∧
        (e.2.demandFulfilledTime.Add demandFulfilledAgeCleanUp).Before (now e.1) = true
    · have h2 : ∃ e ∈ entry :: rest, e.1 = key ∧
          (e.2.demandFulfilledTime.Add demandFulfilledAgeCleanUp).Before (now e.1) = true := by
        obtain ⟨e, he, hp⟩ := h1
        exact ⟨e, List.mem_cons_of_mem _ he, hp⟩
      rw [if_pos h1, if_pos h2]
    · rw [if_neg h1]
      by_cases h3 : entry.1 = key ∧
          (entry.2.demandFulfilledTime.Add demandFulfilledAgeCleanUp).Before (now entry.1)
            = true
      · have h2 : ∃ e ∈ entry :: rest, e.1 = key ∧
            (e.2.demandFulfilledTime.Add demandFulfilledAgeCleanUp).Before (now e.1)
              = true := ⟨entry, List.mem_cons_self _ _, h3⟩
        rw [if_pos h3, if_pos h2]
      · have h2 : ¬ ∃ e ∈ entry :: rest, e.1 = key ∧
            (e.2.demandFulfilledTime.Add demandFulfilledAgeCleanUp).Before (now e.1)
              = true := by
          rintro ⟨e, he, hp⟩
          rcases List.mem_cons.mp he with he | he
          · exact h3 (he ▸ hp)
          · exact h1 ⟨e, he, hp⟩
        rw [if_neg h3, if_neg h2]

/-- What `cleanupMetricCache` does to the record of a key: it is deleted when
its `demandFulfilledTime` plus six hours is before the clock value read at
its visit, and kept as it is otherwise. -/
theorem cleanupMetricCache_lookup (r : wasteMetricsReporter) (now : podKey → Time)
    (key : podKey) (info : schedulingMetricInfo) (h : r.info.lookup key = some info) :
    (cleanupMetricCache r now).info.lookup key =
      if (info.demandFulfilledTime.Add demandFulfilledAgeCleanUp).Before (now key) = true
      then none else some info := by
  unfold cleanupMetricCache
  rw [cleanupMetricCache_foldl_lookup, h]
  by_cases hb : (info.demandFulfilledTime.Add demandFulfilledAgeCleanUp).Before (now key)
      = true
  · have hmem : (Sigma.mk key info : Sigma (fun _ : podKey => schedulingMetricInfo)) ∈
        r.info.entries := AList.mem_lookup_iff.mp (by rw [h]; exact rfl)
    rw [if_pos hb, if_pos ⟨⟨key, info⟩, hmem, rfl, hb⟩]
  · rw [if_neg hb, if_neg]
    rintro ⟨⟨k2, i2⟩, hmem, hk, hp⟩
    simp only at hk
    subst hk
    have hl : r.info.lookup k2 = some i2 := by
      have := AList.mem_lookup_iff.mpr hmem
      exact Option.mem_def.mp this
    rw [h] at hl
    cases hl
    exact hb hp

/-! ## Paths of `onPodScheduled` -/

section Paths

variable (ext : Externals)

/-- Path of `onPodScheduled` for a pod without record. -/
theorem onPodScheduled_of_lookup_none (r : wasteMetricsReporter) (pod : Pod) (now : Time)
    (h : r.info.lookup (podKey.mk pod.Namespace pod.Name) = none) :
    onPodScheduled ext r pod now =
      Completion.returned
        (markAndSlowLog ext r pod (totalTimeNoDemand ext) (now.Sub pod.CreationTimestamp)) := by
  simp [onPodScheduled, get_of_lookup_none h]

/-- Path of `onPodScheduled` for a record without `demandCreationTime`. -/
theorem onPodScheduled_of_no_creation (r : wasteMetricsReporter) (pod : Pod) (now : Time)
    (info : schedulingMetricInfo)
    (h : r.info.lookup (podKey.mk pod.Namespace pod.Name) = some info)
    (hc : info.demandCreationTime.IsZero = true) :
    onPodScheduled ext r pod now =
      Completion.returned
        (markAndSlowLog ext r pod (totalTimeNoDemand ext) (now.Sub pod.CreationTimestamp)) := by
  simp [onPodScheduled, get_of_lookup_some h, hc]

/-- Path of `onPodScheduled` for a record created and not fulfilled. -/
theorem onPodScheduled_of_unfulfilled (r : wasteMetricsReporter) (pod : Pod) (now : Time)
    (info : schedulingMetricInfo)
    (h : r.info.lookup (podKey.mk pod.Namespace pod.Name) = some info)
    (hc : info.demandCreationTime.IsZero = false)
    (hf : info.demandFulfilledTime.IsZero = true) :
    onPodScheduled ext r pod now =
      Completion.returned
        (markAndSlowLog ext r pod (beforeDemandCreation ext)
          (info.demandCreationTime.Sub pod.CreationTimestamp)) := by
  simp [onPodScheduled, get_of_lookup_some h, hc, hf]

/-- Path of `onPodScheduled` for a fulfilled record without failure after
the fulfilment. -/
theorem onPodScheduled_of_no_failure (r : wasteMetricsReporter) (pod : Pod) (now : Time)
    (info : schedulingMetricInfo)
    (h : r.info.lookup (podKey.mk pod.Namespace pod.Name) = some info)
    (hc : info.demandCreationTime.IsZero = false)
    (hf : info.demandFulfilledTime.IsZero = false)
    (ha : (!info.lastFailedSchedulingAttemptInfo.attemptTime.IsZero &&
      info.lastFailedSchedulingAttemptInfo.attemptTime.After info.demandFulfilledTime)
        = false) :
    onPodScheduled ext r pod now =
      Completion.returned
        (markAndSlowLog ext
          (markAndSlowLog ext r pod (beforeDemandCreation ext)
            (info.demandCreationTime.Sub pod.CreationTimestamp))
          pod (afterDemandFulfilledNoFailures ext) (now.Sub info.demandFulfilledTime)) := by
  simp only [onPodScheduled, get_of_lookup_some h, hc, hf, ha]
  simp

/-- Path of `onPodScheduled` for a failure after the fulfilment whose tag is
built. -/
theorem onPodScheduled_of_failure (r : wasteMetricsReporter) (pod : Pod) (now : Time)
    (info : schedulingMetricInfo) (tag : tagInfo)
    (h : r.info.lookup (podKey.mk pod.Namespace pod.Name) = some info)
    (hc : info.demandCreationTime.IsZero = false)
    (hf : info.demandFulfilledTime.IsZero = false)
    (hz : info.lastFailedSchedulingAttemptInfo.attemptTime.IsZero = false)
    (ha : info.lastFailedSchedulingAttemptInfo.attemptTime.After info.demandFulfilledTime
      = true)
    (ht : getTagInfoForFailureAfterDemandFulfilled ext
      info.lastFailedSchedulingAttemptInfo.attemptOutcome = some tag) :
    onPodScheduled ext r pod now =
      Completion.returned
        (markAndSlowLog ext
          (markAndSlowLog ext
            (markAndSlowLog ext r pod (beforeDemandCreation ext)
              (info.demandCreationTime.Sub pod.CreationTimestamp))
            pod tag
            (info.lastFailedSchedulingAttemptInfo.attemptTime.Sub info.demandFulfilledTime))
          pod (afterDemandFulfilledLastFailure ext)
          (now.Sub info.lastFailedSchedulingAttemptInfo.attemptTime)) := by
  simp only [onPodScheduled, get_of_lookup_some h, hc, hf, hz, ha, ht]
  simp

/-- Path of `onPodScheduled` for a failure after the fulfilment whose tag is
not built: the handler panics after its first `markAndSlowLog`. -/
theorem onPodScheduled_of_failure_panic (r : wasteMetricsReporter) (pod : Pod) (now : Time)
    (info : schedulingMetricInfo)
    (h : r.info.lookup (podKey.mk pod.Namespace pod.Name) = some info)
    (hc : info.demandCreationTime.IsZero = false)
    (hf : info.demandFulfilledTime.IsZero = false)
    (hz : info.lastFailedSchedulingAttemptInfo.attemptTime.IsZero = false)
    (ha : info.lastFailedSchedulingAttemptInfo.attemptTime.After info.demandFulfilledTime
      = true)
    (ht : getTagInfoForFailureAfterDemandFulfilled ext
      info.lastFailedSchedulingAttemptInfo.attemptOutcome = none) :
    onPodScheduled ext r pod now =
      Completion.panicked
        (markAndSlowLog ext r pod (beforeDemandCreation ext)
          (info.demandCreationTime.Sub pod.CreationTimestamp)) := by
  simp only [onPodScheduled, get_of_lookup_some h, hc, hf, hz, ha, ht]
  simp

end Paths

/-! ## The classifier `onPodScheduled` -/

/-- C1: when the store has no record for the key of the pod, or has one whose
`demandCreationTime` is unset, `onPodScheduled` at time `now` adds to the
registry the two updates of exactly one sample, tagged `total-time-no-demand`,
of duration `now.Sub` of the pod creation timestamp, and nothing else; and
it returns without panic. -/
theorem onPodScheduled_no_demand_wait (ext : Externals) (r : wasteMetricsReporter)
    (pod : Pod) (now : Time)
    (h : r.info.lookup (podKey.mk pod.Namespace pod.Name) = none ∨
      ∃ info, r.info.lookup (podKey.mk pod.Namespace pod.Name) = some info ∧
        info.demandCreationTime.IsZero = true) :
    (onPodScheduled ext r pod now).reporter.registry =
        r.registry ++ sampleUpdates ext r.instanceGroupLabel pod
          (Tag.mk (normalizeTag ext.schedulingWasteTypeTagName) "total-time-no-demand")
          (now.Sub pod.CreationTimestamp) ∧
      (onPodScheduled ext r pod now).isPanic = false := by
  rcases h with h | ⟨info, h, hz⟩
  · rw [onPodScheduled_of_lookup_none ext r pod now h]
    simp [Completion.reporter, Completion.isPanic, markAndSlowLog_registry,
      totalTimeNoDemand_eq]
  · rw [onPodScheduled_of_no_creation ext r pod now info h hz]
    simp [Completion.reporter, Completion.isPanic, markAndSlowLog_registry,
      totalTimeNoDemand_eq]

/-- Instance of C1: a pod whose record holds only a failed attempt, observed
scheduled 40 s after its creation, yields one `total-time-no-demand` sample
of 40 s. -/
theorem onPodScheduled_no_demand_wait_witness :
    (Example.reporterWith Example.onlyFailure).info.lookup
        (podKey.mk Example.pod.Namespace Example.pod.Name) = some Example.onlyFailure ∧
      Example.onlyFailure.demandCreationTime.IsZero = true ∧
      (onPodScheduled Example.externals (Example.reporterWith Example.onlyFailure)
          Example.pod (Example.t0.Add (40 * Second))).reporter.registry =
        sampleUpdates Example.externals "instance-group" Example.pod
          (Tag.mk "wastetype" "total-time-no-demand") (40 * Second) :=
  ⟨by decide, by decide,
    (onPodScheduled_no_demand_wait Example.externals
      (Example.reporterWith Example.onlyFailure) Example.pod (Example.t0.Add (40 * Second))
      (Or.inr ⟨Example.onlyFailure, by decide, by decide⟩)).1.trans (by decide)⟩

/-- C2: when the record of the pod has `demandCreationTime` set and
`demandFulfilledTime` unset, whatever its last failed attempt,
`onPodScheduled` adds to the registry the two updates of exactly one sample,
tagged `before-demand-creation`, of duration `demandCreationTime.Sub` of the
pod creation timestamp; and it returns without panic. -/
theorem onPodScheduled_pre_demand_wait_only (ext : Externals) (r : wasteMetricsReporter)
    (pod : Pod) (now : Time) (info : schedulingMetricInfo)
    (h : r.info.lookup (podKey.mk pod.Namespace pod.Name) = some info)
    (hc : info.demandCreationTime.IsZero = false)
    (hf : info.demandFulfilledTime.IsZero = true) :
    (onPodScheduled ext r pod now).reporter.registry =
        r.registry ++ sampleUpdates ext r.instanceGroupLabel pod
          (Tag.mk (normalizeTag ext.schedulingWasteTypeTagName) "before-demand-creation")
          (info.demandCreationTime.Sub pod.CreationTimestamp) ∧
      (onPodScheduled ext r pod now).isPanic = false := by
  rw [onPodScheduled_of_unfulfilled ext r pod now info h hc hf]
  simp [Completion.reporter, Completion.isPanic, markAndSlowLog_registry,
    beforeDemandCreation_eq]

/-- Instance of C2: demand created 30 s after the pod and never fulfilled. -/
theorem onPodScheduled_pre_demand_wait_only_witness :
    (Example.reporterWith Example.createdOnly).info.lookup
        (podKey.mk Example.pod.Namespace Example.pod.Name) = some Example.createdOnly ∧
      Example.createdOnly.demandCreationTime.IsZero = false ∧
      Example.createdOnly.demandFulfilledTime.IsZero = true ∧
      (onPodScheduled Example.externals (Example.reporterWith Example.createdOnly)
          Example.pod (Example.t0.Add (40 * Second))).reporter.registry =
        sampleUpdates Example.externals "instance-group" Example.pod
          (Tag.mk "wastetype" "before-demand-creation") (30 * Second) :=
  ⟨by decide, by decide, by decide,
    (onPodScheduled_pre_demand_wait_only Example.externals
      (Example.reporterWith Example.createdOnly) Example.pod (Example.t0.Add (40 * Second))
      Example.createdOnly (by decide) (by decide) (by decide)).1.trans (by decide)⟩

/-- C3: when the record of the pod has `demandCreationTime` and
`demandFulfilledTime` set, and its last failed attempt is unset or not
strictly after `demandFulfilledTime`, `onPodScheduled` at time `now` adds
the `before-demand-creation` sample and then exactly one
`after-demand-fulfilled-no-failures` sample of duration
`now.Sub demandFulfilledTime`; none of the added updates carries a tag whose
value starts with `after-demand-fulfilled-failure-`, as the failure tag of
every outcome does, or the tag `after-demand-fulfilled-last-failure`; and
the handler returns without panic. -/
theorem onPodScheduled_no_failure_after_fulfilled (ext : Externals)
    (r : wasteMetricsReporter) (pod : Pod) (now : Time) (info : schedulingMetricInfo)
    (h : r.info.lookup (podKey.mk pod.Namespace pod.Name) = some info)
    (hc : info.demandCreationTime.IsZero = false)
    (hf : info.demandFulfilledTime.IsZero = false)
    (ha : info.lastFailedSchedulingAttemptInfo.attemptTime.IsZero = true ∨
      info.lastFailedSchedulingAttemptInfo.attemptTime.After info.demandFulfilledTime = false) :
    (onPodScheduled ext r pod now).reporter.registry =
      r.registry ++
        (sampleUpdates ext r.instanceGroupLabel pod
            (Tag.mk (normalizeTag ext.schedulingWasteTypeTagName) "before-demand-creation")
            (info.demandCreationTime.Sub pod.CreationTimestamp) ++
          sampleUpdates ext r.instanceGroupLabel pod
            (Tag.mk (normalizeTag ext.schedulingWasteTypeTagName)
              "after-demand-fulfilled-no-failures")
            (now.Sub info.demandFulfilledTime)) ∧
      (∀ u ∈ sampleUpdates ext r.instanceGroupLabel pod
            (Tag.mk (normalizeTag ext.schedulingWasteTypeTagName) "before-demand-creation")
            (info.demandCreationTime.Sub pod.CreationTimestamp) ++
          sampleUpdates ext r.instanceGroupLabel pod
            (Tag.mk (normalizeTag ext.schedulingWasteTypeTagName)
              "after-demand-fulfilled-no-failures")
            (now.Sub info.demandFulfilledTime),
        (∀ (outcome : String) (tag : tagInfo),
          getTagInfoForFailureAfterDemandFulfilled ext outcome = some tag →
          u.wasteTag ≠ some tag.tag) ∧
        (∀ suffix : String,
          u.wasteTag ≠ some (Tag.mk (normalizeTag ext.schedulingWasteTypeTagName)
            ("after-demand-fulfilled-failure-" ++ suffix))) ∧
        u.wasteTag ≠ some (Tag.mk (normalizeTag ext.schedulingWasteTypeTagName)
          "after-demand-fulfilled-last-failure")) ∧
      (onPodScheduled ext r pod now).isPanic = false := by
  have ha2 : (!info.lastFailedSchedulingAttemptInfo.attemptTime.IsZero &&
      info.lastFailedSchedulingAttemptInfo.attemptTime.After info.demandFulfilledTime)
        = false := by
    rcases ha with ha | ha <;> simp [ha]
  rw [onPodScheduled_of_no_failure ext r pod now info h hc hf ha2]
  refine ⟨?_, ?_, rfl⟩
  · simp [Completion.reporter, markAndSlowLog_registry, beforeDemandCreation_eq,
      afterDemandFulfilledNoFailures_eq, markAndSlowLog_instanceGroupLabel]
  · have hsuffix : ∀ (u : HistogramUpdate) (t : Tag), u.wasteTag = some t →
        (t = Tag.mk (normalizeTag ext.schedulingWasteTypeTagName) "before-demand-creation" ∨
          t = Tag.mk (normalizeTag ext.schedulingWasteTypeTagName)
            "after-demand-fulfilled-no-failures") →
        (∀ suffix : String,
          u.wasteTag ≠ some (Tag.mk (normalizeTag ext.schedulingWasteTypeTagName)
            ("after-demand-fulfilled-failure-" ++ suffix))) := by
      intro u t hu ht suffix e
      rw [hu] at e
      have e2 := (Option.some.inj e).symm
      rcases ht with ht | ht
      · exact failureTag_ne_beforeDemandCreation _ _ (e2.trans ht)
      · exact failureTag_ne_noFailures _ _ (e2.trans ht)
    intro u hu
    have hu2 : u.wasteTag = some (Tag.mk (normalizeTag ext.schedulingWasteTypeTagName)
          "before-demand-creation") ∨
        u.wasteTag = some (Tag.mk (normalizeTag ext.schedulingWasteTypeTagName)
          "after-demand-fulfilled-no-failures") := by
      rcases List.mem_append.mp hu with hu | hu
      · exact Or.inl (mem_sampleUpdates_wasteTag ext hu)
      · exact Or.inr (mem_sampleUpdates_wasteTag ext hu)
    have hs : ∀ suffix : String,
        u.wasteTag ≠ some (Tag.mk (normalizeTag ext.schedulingWasteTypeTagName)
          ("after-demand-fulfilled-failure-" ++ suffix)) := by
      rcases hu2 with hu2 | hu2
      · exact hsuffix u _ hu2 (Or.inl rfl)
      · exact hsuffix u _ hu2 (Or.inr rfl)
    refine ⟨?_, hs, ?_⟩
    · intro outcome tag ht
      by_cases hfit : ext.schedulingWasteTypeTagName.utf8ByteSize + 1 +
          ("after-demand-fulfilled-failure-" ++ outcome).utf8ByteSize ≤ 200
      · rw [getTagInfoForFailureAfterDemandFulfilled_of_fits ext outcome hfit] at ht
        cases ht
        exact hs (normalizeTag outcome)
      · rw [getTagInfoForFailureAfterDemandFulfilled_of_not_fits ext outcome
          (by omega)] at ht
        cases ht
    · rcases hu2 with hu2 | hu2 <;> rw [hu2] <;> simp

/-- Instance of C3: demand fulfilled 2 min after `t0`, last failure 1 min
after `t0`, pod observed scheduled 3 min after `t0`. -/
theorem onPodScheduled_no_failure_after_fulfilled_witness :
    (Example.reporterWith Example.fulfilledNoFailureAfter).info.lookup
        (podKey.mk Example.pod.Namespace Example.pod.Name) =
        some Example.fulfilledNoFailureAfter ∧
      Example.fulfilledNoFailureAfter.lastFailedSchedulingAttemptInfo.attemptTime.After
        Example.fulfilledNoFailureAfter.demandFulfilledTime = false ∧
      (onPodScheduled Example.externals (Example.reporterWith Example.fulfilledNoFailureAfter)
          Example.pod (Example.t0.Add (3 * Minute))).reporter.registry =
        sampleUpdates Example.externals "instance-group" Example.pod
            (Tag.mk "wastetype" "before-demand-creation") 0 ++
          sampleUpdates Example.externals "instance-group" Example.pod
            (Tag.mk "wastetype" "after-demand-fulfilled-no-failures") (1 * Minute) :=
  ⟨by decide, by decide,
    (onPodScheduled_no_failure_after_fulfilled Example.externals
      (Example.reporterWith Example.fulfilledNoFailureAfter) Example.pod
      (Example.t0.Add (3 * Minute)) Example.fulfilledNoFailureAfter
      (by decide) (by decide) (by decide) (Or.inr (by decide))).1.trans (by decide)⟩

section RegistryFacts

variable (ext : Externals)

/-- Registry after `onPodScheduled` on the path with a failure recorded
after fulfilment whose tag fits in 200 bytes. -/
theorem onPodScheduled_registry_failure (r : wasteMetricsReporter) (pod : Pod) (now : Time)
    (info : schedulingMetricInfo)
    (h : r.info.lookup (podKey.mk pod.Namespace pod.Name) = some info)
    (hc : info.demandCreationTime.IsZero = false)
    (hf : info.demandFulfilledTime.IsZero = false)
    (hz : info.lastFailedSchedulingAttemptInfo.attemptTime.IsZero = false)
    (ha : info.lastFailedSchedulingAttemptInfo.attemptTime.After info.demandFulfilledTime
      = true)
    (hfit : ext.schedulingWasteTypeTagName.utf8ByteSize + 1 +
      ("after-demand-fulfilled-failure-" ++
        info.lastFailedSchedulingAttemptInfo.attemptOutcome).utf8ByteSize ≤ 200) :
    (onPodScheduled ext r pod now).reporter.registry =
        r.registry ++
          (sampleUpdates ext r.instanceGroupLabel pod
              (Tag.mk (normalizeTag ext.schedulingWasteTypeTagName) "before-demand-creation")
              (info.demandCreationTime.Sub pod.CreationTimestamp) ++
            sampleUpdates ext r.instanceGroupLabel pod
              (Tag.mk (normalizeTag ext.schedulingWasteTypeTagName)
                ("after-demand-fulfilled-failure-" ++
                  normalizeTag info.lastFailedSchedulingAttemptInfo.attemptOutcome))
              (info.lastFailedSchedulingAttemptInfo.attemptTime.Sub
                info.demandFulfilledTime) ++
            sampleUpdates ext r.instanceGroupLabel pod
              (Tag.mk (normalizeTag ext.schedulingWasteTypeTagName)
                "after-demand-fulfilled-last-failure")
              (now.Sub info.lastFailedSchedulingAttemptInfo.attemptTime)) ∧
      (onPodScheduled ext r pod now).isPanic = false := by
  rw [onPodScheduled_of_failure ext r pod now info _ h hc hf hz ha
    (getTagInfoForFailureAfterDemandFulfilled_of_fits ext _ hfit)]
  simp [Completion.reporter, Completion.isPanic, markAndSlowLog_registry,
    beforeDemandCreation_eq, afterDemandFulfilledLastFailure_eq,
    markAndSlowLog_instanceGroupLabel]

/-- Registry after `onPodScheduled` on the path with a failure recorded
after fulfilment whose tag does not fit: only the first sample is there. -/
theorem onPodScheduled_registry_failure_panic (r : wasteMetricsReporter) (pod : Pod)
    (now : Time) (info : schedulingMetricInfo)
    (h : r.info.lookup (podKey.mk pod.Namespace pod.Name) = some info)
    (hc : info.demandCreationTime.IsZero = false)
    (hf : info.demandFulfilledTime.IsZero = false)
    (hz : info.lastFailedSchedulingAttemptInfo.attemptTime.IsZero = false)
    (ha : info.lastFailedSchedulingAttemptInfo.attemptTime.After info.demandFulfilledTime
      = true)
    (hfit : 200 < ext.schedulingWasteTypeTagName.utf8ByteSize + 1 +
      ("after-demand-fulfilled-failure-" ++
        info.lastFailedSchedulingAttemptInfo.attemptOutcome).utf8ByteSize) :
    (onPodScheduled ext r pod now).reporter.registry =
        r.registry ++
          sampleUpdates ext r.instanceGroupLabel pod
            (Tag.mk (normalizeTag ext.schedulingWasteTypeTagName) "before-demand-creation")
            (info.demandCreationTime.Sub pod.CreationTimestamp) ∧
      (onPodScheduled ext r pod now).isPanic = true := by
  rw [onPodScheduled_of_failure_panic ext r pod now info h hc hf hz ha
    (getTagInfoForFailureAfterDemandFulfilled_of_not_fits ext _ hfit)]
  simp [Completion.reporter, Completion.isPanic, markAndSlowLog_registry,
    beforeDemandCreation_eq]

/-- Registry after `onPodScheduled` on the path without failure after the
fulfilment. -/
theorem onPodScheduled_registry_no_failure (r : wasteMetricsReporter) (pod : Pod)
    (now : Time) (info : schedulingMetricInfo)
    (h : r.info.lookup (podKey.mk pod.Namespace pod.Name) = some info)
    (hc : info.demandCreationTime.IsZero = false)
    (hf : info.demandFulfilledTime.IsZero = false)
    (ha : (!info.lastFailedSchedulingAttemptInfo.attemptTime.IsZero &&
      info.lastFailedSchedulingAttemptInfo.attemptTime.After info.demandFulfilledTime)
        = false) :
    (onPodScheduled ext r pod now).reporter.registry =
        r.registry ++
          (sampleUpdates ext r.instanceGroupLabel pod
              (Tag.mk (normalizeTag ext.schedulingWasteTypeTagName) "before-demand-creation")
              (info.demandCreationTime.Sub pod.CreationTimestamp) ++
            sampleUpdates ext r.instanceGroupLabel pod
              (Tag.mk (normalizeTag ext.schedulingWasteTypeTagName)
                "after-demand-fulfilled-no-failures")
              (now.Sub info.demandFulfilledTime)) ∧
      (onPodScheduled ext r pod now).isPanic = false := by
  rw [onPodScheduled_of_no_failure ext r pod now info h hc hf ha]
  simp [Completion.reporter, Completion.isPanic, markAndSlowLog_registry,
    beforeDemandCreation_eq, afterDemandFulfilledNoFailures_eq,
    markAndSlowLog_instanceGroupLabel]

/-- Registry after `onPodScheduled` when the store has no record for the pod. -/
theorem onPodScheduled_registry_of_lookup_none (r : wasteMetricsReporter) (pod : Pod)
    (now : Time) (h : r.info.lookup (podKey.mk pod.Namespace pod.Name) = none) :
    (onPodScheduled ext r pod now).reporter.registry =
        r.registry ++ sampleUpdates ext r.instanceGroupLabel pod
          (Tag.mk (normalizeTag ext.schedulingWasteTypeTagName) "total-time-no-demand")
          (now.Sub pod.CreationTimestamp) ∧
      (onPodScheduled ext r pod now).isPanic = false := by
  rw [onPodScheduled_of_lookup_none ext r pod now h]
  simp [Completion.reporter, Completion.isPanic, markAndSlowLog_registry,
    totalTimeNoDemand_eq]

end RegistryFacts

set_option maxRecDepth 100000 in
/-- C4, as stated, fails.  The demand of the example pod is created and
fulfilled, and `MarkFailedSchedulingAttempt` is then called with an outcome
of 170 bytes, which the consumer stores.  The record has both demand times
set and a last failed attempt strictly after the fulfilment, yet
`onPodScheduled` panics while it builds the failure tag, which would take
211 bytes: the registry holds the `before-demand-creation` sample only, and
neither the failure sample nor the last-failure sample. -/
theorem onPodScheduled_failure_oversize_counterexample :
    (run Example.externals (newReporter "instance-group") Example.oversizeEvents).isPanic
        = false ∧
      (run Example.externals (newReporter "instance-group")
          Example.oversizeEvents).reporter.info.lookup
            (podKey.mk Example.pod.Namespace Example.pod.Name) =
        some { lastFailedSchedulingAttemptInfo :=
                 ⟨Example.t0.Add (2 * Minute + 10 * Second), Example.longOutcome⟩,
               demandFulfilledTime := Example.t0.Add (2 * Minute),
               demandCreationTime := Example.t0 } ∧
      Example.t0.IsZero = false ∧
      (Example.t0.Add (2 * Minute)).IsZero = false ∧
      (Example.t0.Add (2 * Minute + 10 * Second)).IsZero = false ∧
      (Example.t0.Add (2 * Minute + 10 * Second)).After (Example.t0.Add (2 * Minute)) = true ∧
      (onPodScheduled Example.externals
          (run Example.externals (newReporter "instance-group")
            Example.oversizeEvents).reporter
          Example.pod (Example.t0.Add (2 * Minute + 30 * Second))).isPanic = true ∧
      (onPodScheduled Example.externals
          (run Example.externals (newReporter "instance-group")
            Example.oversizeEvents).reporter
          Example.pod (Example.t0.Add (2 * Minute + 30 * Second))).reporter.registry =
        sampleUpdates Example.externals "instance-group" Example.pod
          (Tag.mk "wastetype" "before-demand-creation") 0 := by
  decide

/-- C4, amended: when the record of the pod has `demandCreationTime` and
`demandFulfilledTime` set and a last failed attempt that is set and strictly
after `demandFulfilledTime`, and the failure tag fits in the 200 bytes the tag
library allows for key, colon and value, `onPodScheduled` at time `now`
returns without panic having added the `before-demand-creation` sample, then
a sample whose tag value is `after-demand-fulfilled-failure-` followed by the
normalised recorded outcome, of duration
`attemptTime.Sub demandFulfilledTime`, then a sample tagged
`after-demand-fulfilled-last-failure` of duration `now.Sub attemptTime`;
none of the added updates is tagged `after-demand-fulfilled-no-failures`;
and when `demandFulfilledTime`, the attempt time and `now` are readings of
the clock of one process, the two durations add up to the time from
fulfilment to `now`. -/
theorem onPodScheduled_failure_after_fulfilled (ext : Externals)
    (r : wasteMetricsReporter) (pod : Pod) (now : Time) (info : schedulingMetricInfo)
    (h : r.info.lookup (podKey.mk pod.Namespace pod.Name) = some info)
    (hc : info.demandCreationTime.IsZero = false)
    (hf : info.demandFulfilledTime.IsZero = false)
    (hz : info.lastFailedSchedulingAttemptInfo.attemptTime.IsZero = false)
    (ha : info.lastFailedSchedulingAttemptInfo.attemptTime.After info.demandFulfilledTime
      = true)
    (hfit : ext.schedulingWasteTypeTagName.utf8ByteSize + 1 +
      ("after-demand-fulfilled-failure-" ++
        info.lastFailedSchedulingAttemptInfo.attemptOutcome).utf8ByteSize ≤ 200) :
    (onPodScheduled ext r pod now).reporter.registry =
      r.registry ++
        (sampleUpdates ext r.instanceGroupLabel pod
            (Tag.mk (normalizeTag ext.schedulingWasteTypeTagName) "before-demand-creation")
            (info.demandCreationTime.Sub pod.CreationTimestamp) ++
          sampleUpdates ext r.instanceGroupLabel pod
            (Tag.mk (normalizeTag ext.schedulingWasteTypeTagName)
              ("after-demand-fulfilled-failure-" ++
                normalizeTag info.lastFailedSchedulingAttemptInfo.attemptOutcome))
            (info.lastFailedSchedulingAttemptInfo.attemptTime.Sub info.demandFulfilledTime) ++
          sampleUpdates ext r.instanceGroupLabel pod
            (Tag.mk (normalizeTag ext.schedulingWasteTypeTagName)
              "after-demand-fulfilled-last-failure")
            (now.Sub info.lastFailedSchedulingAttemptInfo.attemptTime)) ∧
      (onPodScheduled ext r pod now).isPanic = false ∧
      (∀ u ∈ sampleUpdates ext r.instanceGroupLabel pod
            (Tag.mk (normalizeTag ext.schedulingWasteTypeTagName) "before-demand-creation")
            (info.demandCreationTime.Sub pod.CreationTimestamp) ++
          sampleUpdates ext r.instanceGroupLabel pod
            (Tag.mk (normalizeTag ext.schedulingWasteTypeTagName)
              ("after-demand-fulfilled-failure-" ++
                normalizeTag info.lastFailedSchedulingAttemptInfo.attemptOutcome))
            (info.lastFailedSchedulingAttemptInfo.attemptTime.Sub info.demandFulfilledTime) ++
          sampleUpdates ext r.instanceGroupLabel pod
            (Tag.mk (normalizeTag ext.schedulingWasteTypeTagName)
              "after-demand-fulfilled-last-failure")
            (now.Sub info.lastFailedSchedulingAttemptInfo.attemptTime),
        u.wasteTag ≠ some (Tag.mk (normalizeTag ext.schedulingWasteTypeTagName)
          "after-demand-fulfilled-no-failures")) ∧
      (∀ started : Time,
        Time.isReading started info.demandFulfilledTime = true →
        Time.isReading started info.lastFailedSchedulingAttemptInfo.attemptTime = true →
        Time.isReading started now = true →
        info.lastFailedSchedulingAttemptInfo.attemptTime.Sub info.demandFulfilledTime +
            now.Sub info.lastFailedSchedulingAttemptInfo.attemptTime =
          now.nanos - info.demandFulfilledTime.nanos) := by
  obtain ⟨hreg, hpanic⟩ := onPodScheduled_registry_failure ext r pod now info h hc hf hz ha hfit
  refine ⟨hreg, hpanic, ?_, ?_⟩
  · intro u hu
    rcases List.mem_append.mp hu with hu | hu
    · rcases List.mem_append.mp hu with hu | hu
      · rw [mem_sampleUpdates_wasteTag ext hu]
        simp
      · rw [mem_sampleUpdates_wasteTag ext hu]
        intro e
        exact failureTag_ne_noFailures _ _ (Option.some.inj e)
    · rw [mem_sampleUpdates_wasteTag ext hu]
      simp
  · intro started h1 h2 h3
    rw [Time.Sub_eq_of_isReading started _ _ h2 h1, Time.Sub_eq_of_isReading started _ _ h3 h2]
    ring

/-- Instance of amended C4: demand fulfilled 2 min after `t0`, failure 10 s
later with outcome `resourceQuota`, pod observed scheduled 20 s after that,
in a process started at `t0`: the failure tag is
`after-demand-fulfilled-failure-resourcequota`, and the durations 10 s and
20 s add up to the 30 s elapsed since fulfilment. -/
theorem onPodScheduled_failure_after_fulfilled_witness :
    (Example.reporterWith Example.fulfilledThenFailure).info.lookup
        (podKey.mk Example.pod.Namespace Example.pod.Name) =
        some Example.fulfilledThenFailure ∧
      Example.fulfilledThenFailure.lastFailedSchedulingAttemptInfo.attemptTime.After
        Example.fulfilledThenFailure.demandFulfilledTime = true ∧
      Example.externals.schedulingWasteTypeTagName.utf8ByteSize + 1 +
        ("after-demand-fulfilled-failure-" ++
          Example.fulfilledThenFailure.lastFailedSchedulingAttemptInfo.attemptOutcome).utf8ByteSize
          ≤ 200 ∧
      (onPodScheduled Example.externals (Example.reporterWith Example.fulfilledThenFailure)
          Example.pod (Example.t0.Add (2 * Minute + 30 * Second))).reporter.registry =
        sampleUpdates Example.externals "instance-group" Example.pod
            (Tag.mk "wastetype" "before-demand-creation") 0 ++
          sampleUpdates Example.externals "instance-group" Example.pod
            (Tag.mk "wastetype" "after-demand-fulfilled-failure-resourcequota")
            (10 * Second) ++
          sampleUpdates Example.externals "instance-group" Example.pod
            (Tag.mk "wastetype" "after-demand-fulfilled-last-failure") (20 * Second) ∧
      Example.fulfilledThenFailure.lastFailedSchedulingAttemptInfo.attemptTime.Sub
            Example.fulfilledThenFailure.demandFulfilledTime +
          (Example.t0.Add (2 * Minute + 30 * Second)).Sub
            Example.fulfilledThenFailure.lastFailedSchedulingAttemptInfo.attemptTime =
        (Example.t0.Add (2 * Minute + 30 * Second)).nanos -
          Example.fulfilledThenFailure.demandFulfilledTime.nanos := by
  have w := onPodScheduled_failure_after_fulfilled Example.externals
    (Example.reporterWith Example.fulfilledThenFailure) Example.pod
    (Example.t0.Add (2 * Minute + 30 * Second)) Example.fulfilledThenFailure
    (by decide) (by decide) (by decide) (by decide) (by decide) (by decide)
  exact ⟨by decide, by decide, by decide, w.1.trans (by decide),
    w.2.2.2 Example.t0 (by decide) (by decide) (by decide)⟩

/-! ## End-to-end scenario -/

/-- C5: starting from the empty store, for a pod created at an instant
`T0` later than the zero time and the demand of that pod, also created at
`T0`, and a tag key of at most 155 bytes (so that the failure tag fits in
the 200 bytes of the tag library): `onDemandCreated`, then
`onDemandFulfilled` at `T0 + 2 min`, then
`processFailedSchedulingAttemptEvent` with attempt time `T0 + 2 min 10 s`
and outcome `resourceQuota`, then `onPodScheduled` at `T0 + 2 min 30 s`
leave in the registry exactly three samples: `before-demand-creation` of
duration 0, the failure sample of outcome `resourceQuota`, whose tag value
the library normalises to `after-demand-fulfilled-failure-resourcequota`, of
10 s, and `after-demand-fulfilled-last-failure` of 20 s; and the handler
returns without panic. -/
theorem scenario_failure_after_fulfilment (ext : Externals) (label : String) (pod : Pod)
    (demand : Demand) (T0 : Time) (hT0 : 0 < T0.nanos)
    (hpod : pod.CreationTimestamp = T0) (hdemand : demand.CreationTimestamp = T0)
    (hns : demand.Namespace = pod.Namespace) (hname : ext.PodName demand = pod.Name)
    (hkeysize : ext.schedulingWasteTypeTagName.utf8ByteSize ≤ 155) :
    (onPodScheduled ext
        (processFailedSchedulingAttemptEvent
          (onDemandFulfilled ext
            (onDemandCreated ext (newReporter label) (Obj.demand demand))
            demand (T0.Add (2 * Minute)))
          { podKey := podKey.mk pod.Namespace pod.Name,
            failedSchedulingAttemptInfo :=
              { attemptTime := T0.Add (2 * Minute + 10 * Second),
                attemptOutcome := "resourceQuota" } })
        pod (T0.Add (2 * Minute + 30 * Second))).reporter.registry =
      sampleUpdates ext label pod
          (Tag.mk (normalizeTag ext.schedulingWasteTypeTagName) "before-demand-creation") 0 ++
        sampleUpdates ext label pod
          (Tag.mk (normalizeTag ext.schedulingWasteTypeTagName)
            "after-demand-fulfilled-failure-resourcequota") (10 * Second) ++
        sampleUpdates ext label pod
          (Tag.mk (normalizeTag ext.schedulingWasteTypeTagName)
            "after-demand-fulfilled-last-failure")
          (20 * Second) ∧
      (onPodScheduled ext
        (processFailedSchedulingAttemptEvent
          (onDemandFulfilled ext
            (onDemandCreated ext (newReporter label) (Obj.demand demand))
            demand (T0.Add (2 * Minute)))
          { podKey := podKey.mk pod.Namespace pod.Name,
            failedSchedulingAttemptInfo :=
              { attemptTime := T0.Add (2 * Minute + 10 * Second),
                attemptOutcome := "resourceQuota" } })
        pod (T0.Add (2 * Minute + 30 * Second))).isPanic = false := by
  have hkey : podKey.mk demand.Namespace (ext.PodName demand) =
      podKey.mk pod.Namespace pod.Name := by rw [hns, hname]
  have l1 := onDemandCreated_lookup ext (newReporter label) demand
  have l0 : (newReporter label).info.lookup
      (podKey.mk demand.Namespace (ext.PodName demand)) = none := AList.lookup_empty _
  rw [get_fst_of_lookup_none l0] at l1
  have l2 := onDemandFulfilled_lookup ext
    (onDemandCreated ext (newReporter label) (Obj.demand demand)) demand (T0.Add (2 * Minute))
  rw [get_fst_of_lookup_some l1, hkey] at l2
  have l3 := processFailedSchedulingAttemptEvent_lookup
    (onDemandFulfilled ext (onDemandCreated ext (newReporter label) (Obj.demand demand))
      demand (T0.Add (2 * Minute)))
    { podKey := podKey.mk pod.Namespace pod.Name,
      failedSchedulingAttemptInfo :=
        { attemptTime := T0.Add (2 * Minute + 10 * Second),
          attemptOutcome := "resourceQuota" } }
  rw [get_fst_of_lookup_some l2] at l3
  have hc : demand.CreationTimestamp.IsZero = false := by
    simp only [hdemand, Time.IsZero]
    simpa using hT0.ne'
  have hf : (T0.Add (2 * Minute)).IsZero = false := by
    simp only [Time.IsZero, Time.Add, Minute, Second]
    have : T0.nanos + 2 * (60 * 1000000000) ≠ 0 := by omega
    simpa using this
  have hz : (T0.Add (2 * Minute + 10 * Second)).IsZero = false := by
    simp only [Time.IsZero, Time.Add, Minute, Second]
    have : T0.nanos + (2 * (60 * 1000000000) + 10 * 1000000000) ≠ 0 := by omega
    simpa using this
  have ha : (T0.Add (2 * Minute + 10 * Second)).After (T0.Add (2 * Minute)) = true := by
    simp only [Time.After, Time.Add, Minute, Second]
    simp
  have hsize : ("after-demand-fulfilled-failure-" ++ "resourceQuota").utf8ByteSize = 44 := by
    decide
  have hfit : ext.schedulingWasteTypeTagName.utf8ByteSize + 1 +
      ("after-demand-fulfilled-failure-" ++ "resourceQuota").utf8ByteSize ≤ 200 := by
    rw [hsize]
    omega
  obtain ⟨hreg, hpanic⟩ := onPodScheduled_registry_failure ext _ pod
    (T0.Add (2 * Minute + 30 * Second)) _ l3 hc hf hz ha hfit
  refine ⟨?_, hpanic⟩
  rw [hreg, (processFailedSchedulingAttemptEvent_sinks _ _).1,
    (processFailedSchedulingAttemptEvent_sinks _ _).2,
    (onDemandFulfilled_sinks ext _ _ _).1, (onDemandFulfilled_sinks ext _ _ _).2,
    (onDemandCreated_sinks ext _ _).1, (onDemandCreated_sinks ext _ _).2]
  have s1 : demand.CreationTimestamp.Sub pod.CreationTimestamp = 0 := by
    rw [hpod, hdemand, Time.Sub_self]
  have s2 : (T0.Add (2 * Minute + 10 * Second)).Sub (T0.Add (2 * Minute)) = 10 * Second := by
    rw [Time.Sub_eq_of_fits] <;>
      simp only [Time.Add, Minute, Second, minDuration, maxDuration] <;> omega
  have s3 : (T0.Add (2 * Minute + 30 * Second)).Sub (T0.Add (2 * Minute + 10 * Second)) =
      20 * Second := by
    rw [Time.Sub_eq_of_fits] <;>
      simp only [Time.Add, Minute, Second, minDuration, maxDuration] <;> omega
  have hn : "after-demand-fulfilled-failure-" ++ normalizeTag "resourceQuota" =
      "after-demand-fulfilled-failure-resourcequota" := by decide
  simp only [s1, s2, s3, hn]
  simp [newReporter]

/-- Instance of C5 with `T0 = t0`, the example pod and its demand. -/
theorem scenario_failure_after_fulfilment_witness :
    0 < Example.t0.nanos ∧
      Example.externals.PodName Example.demand = Example.pod.Name ∧
      Example.externals.schedulingWasteTypeTagName.utf8ByteSize ≤ 155 ∧
      (onPodScheduled Example.externals
          (processFailedSchedulingAttemptEvent
            (onDemandFulfilled Example.externals
              (onDemandCreated Example.externals (newReporter "instance-group")
                (Obj.demand Example.demand))
              Example.demand (Example.t0.Add (2 * Minute)))
            { podKey := podKey.mk Example.pod.Namespace Example.pod.Name,
              failedSchedulingAttemptInfo :=
                { attemptTime := Example.t0.Add (2 * Minute + 10 * Second),
                  attemptOutcome := "resourceQuota" } })
          Example.pod (Example.t0.Add (2 * Minute + 30 * Second))).reporter.registry =
        sampleUpdates Example.externals "instance-group" Example.pod
            (Tag.mk "wastetype" "before-demand-creation") 0 ++
          sampleUpdates Example.externals "instance-group" Example.pod
            (Tag.mk "wastetype" "after-demand-fulfilled-failure-resourcequota")
            (10 * Second) ++
          sampleUpdates Example.externals "instance-group" Example.pod
            (Tag.mk "wastetype" "after-demand-fulfilled-last-failure") (20 * Second) :=
  ⟨by decide, by decide, by decide,
    (scenario_failure_after_fulfilment Example.externals "instance-group" Example.pod
      Example.demand Example.t0 (by decide) rfl rfl rfl (by decide) (by decide)).1.trans
      (by decide)⟩

/-! ## Handlers that write the store -/

/-- C6, as stated, fails: `onDemandCreated` for the demand of a pod whose
record is fulfilled leaves a record whose `demandFulfilledTime` is unset. -/
theorem onDemandCreated_fulfilled_counterexample :
    (Example.reporterWith Example.fulfilledThenFailure).info.lookup
        (podKey.mk Example.demand.Namespace (Example.externals.PodName Example.demand)) =
        some Example.fulfilledThenFailure ∧
      (onDemandCreated Example.externals (Example.reporterWith Example.fulfilledThenFailure)
          (Obj.demand Example.demand)).info.lookup
        (podKey.mk Example.demand.Namespace (Example.externals.PodName Example.demand)) =
        some { lastFailedSchedulingAttemptInfo :=
                 Example.fulfilledThenFailure.lastFailedSchedulingAttemptInfo,
               demandFulfilledTime := Time.zero,
               demandCreationTime := Example.demand.CreationTimestamp } ∧
      Example.fulfilledThenFailure.demandFulfilledTime ≠ Time.zero := by
  decide

/-- C6, amended: `onDemandCreated` for a demand stores, under the key made of
the demand namespace and the name of its pod, a record whose
`demandCreationTime` is the creation timestamp of the demand and whose
`demandFulfilledTime` is unset; the last failed attempt of a record that
existed is kept, and it is unset when there was none. -/
theorem onDemandCreated_record (ext : Externals) (r : wasteMetricsReporter)
    (demand : Demand) :
    (∀ info : schedulingMetricInfo,
        r.info.lookup (podKey.mk demand.Namespace (ext.PodName demand)) = some info →
        (onDemandCreated ext r (Obj.demand demand)).info.lookup
            (podKey.mk demand.Namespace (ext.PodName demand)) =
          some { lastFailedSchedulingAttemptInfo := info.lastFailedSchedulingAttemptInfo,
                 demandFulfilledTime := Time.zero,
                 demandCreationTime := demand.CreationTimestamp }) ∧
      (r.info.lookup (podKey.mk demand.Namespace (ext.PodName demand)) = none →
        (onDemandCreated ext r (Obj.demand demand)).info.lookup
            (podKey.mk demand.Namespace (ext.PodName demand)) =
          some { lastFailedSchedulingAttemptInfo := failedSchedulingAttemptInfo.zero,
                 demandFulfilledTime := Time.zero,
                 demandCreationTime := demand.CreationTimestamp }) := by
  constructor
  · intro info h
    rw [onDemandCreated_lookup, get_fst_of_lookup_some h]
  · intro h
    rw [onDemandCreated_lookup, get_fst_of_lookup_none h]
    rfl

/-- C10: after `onDemandFulfilled` at time `now`, the record under the key
made of the demand namespace and the name of its pod has
`demandFulfilledTime = now`, `demandCreationTime` equal to the creation
timestamp of the demand, and the last failed attempt of the record that
existed before, unset when there was none. -/
theorem onDemandFulfilled_record (ext : Externals) (r : wasteMetricsReporter)
    (demand : Demand) (now : Time) :
    (∀ info : schedulingMetricInfo,
        r.info.lookup (podKey.mk demand.Namespace (ext.PodName demand)) = some info →
        (onDemandFulfilled ext r demand now).info.lookup
            (podKey.mk demand.Namespace (ext.PodName demand)) =
          some { lastFailedSchedulingAttemptInfo := info.lastFailedSchedulingAttemptInfo,
                 demandFulfilledTime := now,
                 demandCreationTime := demand.CreationTimestamp }) ∧
      (r.info.lookup (podKey.mk demand.Namespace (ext.PodName demand)) = none →
        (onDemandFulfilled ext r demand now).info.lookup
            (podKey.mk demand.Namespace (ext.PodName demand)) =
          some { lastFailedSchedulingAttemptInfo := failedSchedulingAttemptInfo.zero,
                 demandFulfilledTime := now,
                 demandCreationTime := demand.CreationTimestamp }) := by
  constructor
  · intro info h
    rw [onDemandFulfilled_lookup, get_fst_of_lookup_some h]
  · intro h
    rw [onDemandFulfilled_lookup, get_fst_of_lookup_none h]
    rfl

/-- C9: when the deleted object yields a pod, `onPodDeleted` leaves no record
under the key of that pod, whatever the store held, and `onPodScheduled`
run next for a pod of the same namespace and name adds exactly one
`total-time-no-demand` sample of duration `now.Sub` of the creation
timestamp of the scheduled pod, and returns without panic. -/
theorem onPodDeleted_then_onPodScheduled (ext : Externals) (r : wasteMetricsReporter)
    (obj : Obj) (pod scheduled : Pod) (now : Time)
    (hobj : ext.GetPodFromObjectOrTombstone obj = some pod)
    (hns : scheduled.Namespace = pod.Namespace) (hname : scheduled.Name = pod.Name) :
    (onPodDeleted ext r obj).info.lookup (podKey.mk pod.Namespace pod.Name) = none ∧
      (onPodScheduled ext (onPodDeleted ext r obj) scheduled now).reporter.registry =
        r.registry ++ sampleUpdates ext r.instanceGroupLabel scheduled
          (Tag.mk (normalizeTag ext.schedulingWasteTypeTagName) "total-time-no-demand")
          (now.Sub scheduled.CreationTimestamp) ∧
      (onPodScheduled ext (onPodDeleted ext r obj) scheduled now).isPanic = false := by
  have hdel : (onPodDeleted ext r obj).info.lookup (podKey.mk pod.Namespace pod.Name)
      = none := by
    rw [onPodDeleted_of_pod ext r obj pod hobj]
    exact AList.lookup_erase _ _
  have hsched : (onPodDeleted ext r obj).info.lookup
      (podKey.mk scheduled.Namespace scheduled.Name) = none := by
    rw [hns, hname]
    exact hdel
  refine ⟨hdel, ?_, ?_⟩
  · rw [(onPodScheduled_registry_of_lookup_none ext _ scheduled now hsched).1,
      onPodDeleted_of_pod ext r obj pod hobj]
  · exact (onPodScheduled_registry_of_lookup_none ext _ scheduled now hsched).2

/-- Instance of C9: the example pod, holding a fulfilled record, is deleted
through a tombstone and then observed scheduled 40 s after its creation. -/
theorem onPodDeleted_then_onPodScheduled_witness :
    (Example.reporterWith Example.fulfilledThenFailure).info.lookup
        (podKey.mk Example.pod.Namespace Example.pod.Name) =
        some Example.fulfilledThenFailure ∧
      Example.externals.GetPodFromObjectOrTombstone (Obj.tombstone (Obj.pod Example.pod)) =
        some Example.pod ∧
      (onPodDeleted Example.externals (Example.reporterWith Example.fulfilledThenFailure)
          (Obj.tombstone (Obj.pod Example.pod))).info.lookup
        (podKey.mk Example.pod.Namespace Example.pod.Name) = none ∧
      (onPodScheduled Example.externals
          (onPodDeleted Example.externals (Example.reporterWith Example.fulfilledThenFailure)
            (Obj.tombstone (Obj.pod Example.pod)))
          Example.pod (Example.t0.Add (40 * Second))).reporter.registry =
        sampleUpdates Example.externals "instance-group" Example.pod
          (Tag.mk "wastetype" "total-time-no-demand") (40 * Second) := by
  have w := onPodDeleted_then_onPodScheduled Example.externals
    (Example.reporterWith Example.fulfilledThenFailure)
    (Obj.tombstone (Obj.pod Example.pod)) Example.pod Example.pod
    (Example.t0.Add (40 * Second)) (by decide) rfl rfl
  exact ⟨by decide, by decide, w.1, w.2.1.trans (by decide)⟩

/-! ## The sweep `cleanupMetricCache` -/

/-- C7 does not hold of the code: a record whose demand was created 30 s
after `t0` and never fulfilled is deleted by a sweep that runs 1 min after
`t0`, and the sweep logs that the pod was not scheduled for 6 hours. -/
theorem cleanupMetricCache_deletes_unfulfilled :
    (Example.reporterWith Example.createdOnly).info.lookup Example.key =
        some Example.createdOnly ∧
      Example.createdOnly.demandFulfilledTime.IsZero = true ∧
      (cleanupMetricCache (Example.reporterWith Example.createdOnly)
          (fun _ => Example.t0.Add (1 * Minute))).info.lookup Example.key = none ∧
      (cleanupMetricCache (Example.reporterWith Example.createdOnly)
          (fun _ => Example.t0.Add (1 * Minute))).logs =
        [{ level := Level.info
           message :=
             "deleting demand from scheduling waste reporter, pod was not scheduled for 6 hours"
           params := [("podNamespace", ParamValue.str "ns"),
                      ("podNamespace", ParamValue.str "pod-1")] }] := by
  decide

/-- C8: for a record whose `demandFulfilledTime` is set, `cleanupMetricCache`
removes the record exactly when `demandFulfilledTime` plus 6 hours is
strictly before the clock value read when the record is visited, and
otherwise leaves the record as it was. -/
theorem cleanupMetricCache_fulfilled (r : wasteMetricsReporter) (now : podKey → Time)
    (key : podKey) (info : schedulingMetricInfo)
    (h : r.info.lookup key = some info)
    (_hf : info.demandFulfilledTime.IsZero = false) :
    ((cleanupMetricCache r now).info.lookup key = none ↔
        info.demandFulfilledTime.nanos + 6 * Hour < (now key).nanos) ∧
      ((now key).nanos ≤ info.demandFulfilledTime.nanos + 6 * Hour →
        (cleanupMetricCache r now).info.lookup key = some info) := by
  rw [cleanupMetricCache_lookup r now key info h]
  by_cases hb : info.demandFulfilledTime.nanos + 6 * Hour < (now key).nanos
  · have hb2 : (info.demandFulfilledTime.Add demandFulfilledAgeCleanUp).Before (now key)
        = true := by
      simpa [Time.Before, Time.Add, demandFulfilledAgeCleanUp] using hb
    rw [if_pos hb2]
    exact ⟨⟨fun _ => hb, fun _ => rfl⟩, fun hle => absurd hb (not_lt.mpr hle)⟩
  · have hb2 : ¬ (info.demandFulfilledTime.Add demandFulfilledAgeCleanUp).Before (now key)
        = true := by
      simpa [Time.Before, Time.Add, demandFulfilledAgeCleanUp] using hb
    rw [if_neg hb2]
    exact ⟨⟨fun e => Option.noConfusion e, fun hlt => absurd hlt hb⟩, fun _ => rfl⟩

/-- Instance of C8: a record fulfilled 2 min after `t0` is removed by a sweep
7 h after `t0` and kept unchanged by a sweep 6 h 2 min after `t0`, the
instant at which the six hours have just elapsed. -/
theorem cleanupMetricCache_fulfilled_witness :
    (Example.reporterWith Example.fulfilledThenFailure).info.lookup Example.key =
        some Example.fulfilledThenFailure ∧
      Example.fulfilledThenFailure.demandFulfilledTime.IsZero = false ∧
      (cleanupMetricCache (Example.reporterWith Example.fulfilledThenFailure)
          (fun _ => Example.t0.Add (7 * Hour))).info.lookup Example.key = none ∧
      (cleanupMetricCache (Example.reporterWith Example.fulfilledThenFailure)
          (fun _ => Example.t0.Add (6 * Hour + 2 * Minute))).info.lookup Example.key =
        some Example.fulfilledThenFailure :=
  ⟨by decide, by decide,
    (cleanupMetricCache_fulfilled (Example.reporterWith Example.fulfilledThenFailure)
      (fun _ => Example.t0.Add (7 * Hour)) Example.key Example.fulfilledThenFailure
      (by decide) (by decide)).1.mpr (by decide),
    (cleanupMetricCache_fulfilled (Example.reporterWith Example.fulfilledThenFailure)
      (fun _ => Example.t0.Add (6 * Hour + 2 * Minute)) Example.key
      Example.fulfilledThenFailure (by decide) (by decide)).2 (by decide)⟩

/-! ## More facts about the handlers -/

/-- Fields of the reporter that `onPodScheduled` does not write, whether it
returns or panics. -/
theorem onPodScheduled_frame (ext : Externals) (r : wasteMetricsReporter) (pod : Pod)
    (now : Time) :
    (onPodScheduled ext r pod now).reporter.info = r.info ∧
      (onPodScheduled ext r pod now).reporter.failedSchedulingAttempts =
        r.failedSchedulingAttempts ∧
      (onPodScheduled ext r pod now).reporter.instanceGroupLabel = r.instanceGroupLabel := by
  cases hl : r.info.lookup (podKey.mk pod.Namespace pod.Name) with
  | none =>
    rw [onPodScheduled_of_lookup_none ext r pod now hl]
    simp [Completion.reporter, markAndSlowLog_info, markAndSlowLog_failedSchedulingAttempts,
      markAndSlowLog_instanceGroupLabel]
  | some info =>
    cases hc : info.demandCreationTime.IsZero with
    | true =>
      rw [onPodScheduled_of_no_creation ext r pod now info hl hc]
      simp [Completion.reporter, markAndSlowLog_info,
        markAndSlowLog_failedSchedulingAttempts, markAndSlowLog_instanceGroupLabel]
    | false =>
      cases hf : info.demandFulfilledTime.IsZero with
      | true =>
        rw [onPodScheduled_of_unfulfilled ext r pod now info hl hc hf]
        simp [Completion.reporter, markAndSlowLog_info,
          markAndSlowLog_failedSchedulingAttempts, markAndSlowLog_instanceGroupLabel]
      | false =>
        cases ha : (!info.lastFailedSchedulingAttemptInfo.attemptTime.IsZero &&
            info.lastFailedSchedulingAttemptInfo.attemptTime.After info.demandFulfilledTime)
            with
        | false =>
          rw [onPodScheduled_of_no_failure ext r pod now info hl hc hf ha]
          simp [Completion.reporter, markAndSlowLog_info,
            markAndSlowLog_failedSchedulingAttempts, markAndSlowLog_instanceGroupLabel]
        | true =>
          simp only [Bool.and_eq_true, Bool.not_eq_true'] at ha
          cases ht : getTagInfoForFailureAfterDemandFulfilled ext
              info.lastFailedSchedulingAttemptInfo.attemptOutcome with
          | none =>
            rw [onPodScheduled_of_failure_panic ext r pod now info hl hc hf ha.1 ha.2 ht]
            simp [Completion.reporter, markAndSlowLog_info,
              markAndSlowLog_failedSchedulingAttempts, markAndSlowLog_instanceGroupLabel]
          | some tag =>
            rw [onPodScheduled_of_failure ext r pod now info tag hl hc hf ha.1 ha.2 ht]
            simp [Completion.reporter, markAndSlowLog_info,
              markAndSlowLog_failedSchedulingAttempts, markAndSlowLog_instanceGroupLabel]

/-! ## Failure events -/

/-- C11: after `processFailedSchedulingAttemptEvent` the record under the key
of the event has the attempt time and outcome of the event as its last
failed attempt, and the `demandCreationTime` and `demandFulfilledTime` of the
record that existed before; when there was none, only the last failed
attempt of the new record is set. -/
theorem processFailedSchedulingAttemptEvent_record (r : wasteMetricsReporter)
    (event : podFailedSchedulingAttempt) :
    (∀ info : schedulingMetricInfo, r.info.lookup event.podKey = some info →
        (processFailedSchedulingAttemptEvent r event).info.lookup event.podKey =
          some { lastFailedSchedulingAttemptInfo := event.failedSchedulingAttemptInfo,
                 demandFulfilledTime := info.demandFulfilledTime,
                 demandCreationTime := info.demandCreationTime }) ∧
      (r.info.lookup event.podKey = none →
        (processFailedSchedulingAttemptEvent r event).info.lookup event.podKey =
          some { lastFailedSchedulingAttemptInfo := event.failedSchedulingAttemptInfo,
                 demandFulfilledTime := Time.zero,
                 demandCreationTime := Time.zero }) := by
  constructor
  · intro info h
    rw [processFailedSchedulingAttemptEvent_lookup, get_fst_of_lookup_some h]
  · intro h
    rw [processFailedSchedulingAttemptEvent_lookup, get_fst_of_lookup_none h]
    rfl

/-! ## Frame of the classifier -/

/-- C17: `onPodScheduled` leaves the store as it was, so every key has the
same record, or the same absence of a record, after the call as before; the
channel buffer and the instance group label are unchanged too, and only the
log and the registry can differ.  This holds whether the call returns or
panics. -/
theorem onPodScheduled_store_unchanged (ext : Externals) (r : wasteMetricsReporter)
    (pod : Pod) (now : Time) :
    (onPodScheduled ext r pod now).reporter.info = r.info ∧
      (∀ key : podKey,
        (onPodScheduled ext r pod now).reporter.info.lookup key = r.info.lookup key) ∧
      (onPodScheduled ext r pod now).reporter.failedSchedulingAttempts =
        r.failedSchedulingAttempts ∧
      (onPodScheduled ext r pod now).reporter.instanceGroupLabel = r.instanceGroupLabel := by
  obtain ⟨h1, h2, h3⟩ := onPodScheduled_frame ext r pod now
  exact ⟨h1, fun key => by rw [h1], h2, h3⟩

/-! ## Last write wins -/

/-- Both branches of `processFailedSchedulingAttemptEvent` store the same
record, since a failed map index yields the zero value. -/
theorem processFailedSchedulingAttemptEvent_eq (r : wasteMetricsReporter)
    (event : podFailedSchedulingAttempt) :
    processFailedSchedulingAttemptEvent r event =
      { r with info := AList.insert event.podKey (schedulingMetricInfo.mk
          event.failedSchedulingAttemptInfo
          (r.info.get event.podKey).1.demandFulfilledTime
          (r.info.get event.podKey).1.demandCreationTime) r.info } := by
  cases hl : r.info.lookup event.podKey
  · simp [processFailedSchedulingAttemptEvent, get_of_lookup_none hl,
      schedulingMetricInfo.zero]
  · simp [processFailedSchedulingAttemptEvent, get_of_lookup_some hl]

theorem get_insert_self (m : schedulingMetricInfoByPod) (key : podKey)
    (info : schedulingMetricInfo) :
    schedulingMetricInfoByPod.get (m.insert key info) key = (info, true) :=
  get_of_lookup_some (AList.lookup_insert m)

/-- C16: for two failure events with the same key, handling the first and
then the second with `processFailedSchedulingAttemptEvent` leaves the
reporter, and so the store, exactly as handling the second alone; the record
of the key then has the attempt time and outcome of the second event as its
single last failed attempt. -/
theorem processFailedSchedulingAttemptEvent_last_write_wins (r : wasteMetricsReporter)
    (e1 e2 : podFailedSchedulingAttempt) (hkey : e1.podKey = e2.podKey) :
    processFailedSchedulingAttemptEvent (processFailedSchedulingAttemptEvent r e1) e2 =
        processFailedSchedulingAttemptEvent r e2 ∧
      ∃ info : schedulingMetricInfo,
        (processFailedSchedulingAttemptEvent (processFailedSchedulingAttemptEvent r e1)
            e2).info.lookup e2.podKey = some info ∧
          info.lastFailedSchedulingAttemptInfo = e2.failedSchedulingAttemptInfo := by
  have heq : processFailedSchedulingAttemptEvent (processFailedSchedulingAttemptEvent r e1) e2 =
      processFailedSchedulingAttemptEvent r e2 := by
    rw [processFailedSchedulingAttemptEvent_eq (processFailedSchedulingAttemptEvent r e1) e2,
      processFailedSchedulingAttemptEvent_eq r e1, processFailedSchedulingAttemptEvent_eq r e2,
      hkey]
    simp only [get_insert_self, AList.insert_insert]
  refine ⟨heq, ?_⟩
  rw [heq, processFailedSchedulingAttemptEvent_lookup]
  exact ⟨_, rfl, rfl⟩

/-- Instance of C16: two failures of the example pod, 5 s and 9 s after
`t0`, handled on a store that holds a fulfilled record of the pod. -/
theorem processFailedSchedulingAttemptEvent_last_write_wins_witness :
    Example.failureAt5s.podKey = Example.failureAt9s.podKey ∧
      processFailedSchedulingAttemptEvent
          (processFailedSchedulingAttemptEvent
            (Example.reporterWith Example.fulfilledThenFailure) Example.failureAt5s)
          Example.failureAt9s =
        processFailedSchedulingAttemptEvent
          (Example.reporterWith Example.fulfilledThenFailure) Example.failureAt9s :=
  ⟨by decide,
    (processFailedSchedulingAttemptEvent_last_write_wins
      (Example.reporterWith Example.fulfilledThenFailure) Example.failureAt5s
      Example.failureAt9s (by decide)).1⟩

/-! ## Malformed objects -/

/-- C18: when `utils.GetPodFromObjectOrTombstone` finds no pod in the object
given to `onPodDeleted`, and when the object given to `onDemandCreated` is
not a demand, the handler returns having written one log line and nothing
else: the store, the channel buffer and the registry are as they were. -/
theorem malformed_object_dropped (ext : Externals) (r : wasteMetricsReporter)
    (deleted created : Obj)
    (hdeleted : ext.GetPodFromObjectOrTombstone deleted = none)
    (hcreated : ∀ demand : Demand, created ≠ Obj.demand demand) :
    ((onPodDeleted ext r deleted).info = r.info ∧
        (onPodDeleted ext r deleted).logs =
          r.logs ++ [{ level := Level.warn,
                       message := "failed to parse object as pod, skipping",
                       params := [] }] ∧
        (onPodDeleted ext r deleted).failedSchedulingAttempts = r.failedSchedulingAttempts ∧
        (onPodDeleted ext r deleted).registry = r.registry) ∧
      ((onDemandCreated ext r created).info = r.info ∧
        (onDemandCreated ext r created).logs =
          r.logs ++ [{ level := Level.error,
                       message := "failed to parse obj as demand",
                       params := [] }] ∧
        (onDemandCreated ext r created).failedSchedulingAttempts =
          r.failedSchedulingAttempts ∧
        (onDemandCreated ext r created).registry = r.registry) := by
  constructor
  · simp [onPodDeleted, hdeleted]
  · cases created with
    | demand d => exact absurd rfl (hcreated d)
    | pod p => simp [onDemandCreated]
    | tombstone o => simp [onDemandCreated]
    | other s => simp [onDemandCreated]

/-- Instance of C18: an object of an unrelated kind reaches `onPodDeleted`
and a pod reaches `onDemandCreated`, on a store that holds one record. -/
theorem malformed_object_dropped_witness :
    Example.externals.GetPodFromObjectOrTombstone (Obj.other "v1.Node") = none ∧
      (onPodDeleted Example.externals (Example.reporterWith Example.fulfilledThenFailure)
          (Obj.other "v1.Node")).info =
        (Example.reporterWith Example.fulfilledThenFailure).info ∧
      (onDemandCreated Example.externals (Example.reporterWith Example.fulfilledThenFailure)
          (Obj.pod Example.pod)).info =
        (Example.reporterWith Example.fulfilledThenFailure).info :=
  ⟨rfl,
    (malformed_object_dropped Example.externals
      (Example.reporterWith Example.fulfilledThenFailure) (Obj.other "v1.Node")
      (Obj.pod Example.pod) rfl (fun _ h => Obj.noConfusion h)).1.1,
    (malformed_object_dropped Example.externals
      (Example.reporterWith Example.fulfilledThenFailure) (Obj.other "v1.Node")
      (Obj.pod Example.pod) rfl (fun _ h => Obj.noConfusion h)).2.1⟩

/-! ## Frame of the handlers that write the store -/

theorem onDemandCreated_lookup_ne (ext : Externals) (r : wasteMetricsReporter)
    (demand : Demand) (key : podKey)
    (h : key ≠ podKey.mk demand.Namespace (ext.PodName demand)) :
    (onDemandCreated ext r (Obj.demand demand)).info.lookup key = r.info.lookup key := by
  cases hl : r.info.lookup (podKey.mk demand.Namespace (ext.PodName demand))
  · simp [onDemandCreated, get_of_lookup_none hl, AList.lookup_insert_ne h]
  · simp [onDemandCreated, get_of_lookup_some hl, AList.lookup_insert_ne h]

theorem onDemandFulfilled_lookup_ne (ext : Externals) (r : wasteMetricsReporter)
    (demand : Demand) (now : Time) (key : podKey)
    (h : key ≠ podKey.mk demand.Namespace (ext.PodName demand)) :
    (onDemandFulfilled ext r demand now).info.lookup key = r.info.lookup key := by
  cases hl : r.info.lookup (podKey.mk demand.Namespace (ext.PodName demand))
  · simp [onDemandFulfilled, get_of_lookup_none hl, AList.lookup_insert_ne h]
  · simp [onDemandFulfilled, get_of_lookup_some hl, AList.lookup_insert_ne h]

theorem processFailedSchedulingAttemptEvent_lookup_ne (r : wasteMetricsReporter)
    (event : podFailedSchedulingAttempt) (key : podKey) (h : key ≠ event.podKey) :
    (processFailedSchedulingAttemptEvent r event).info.lookup key = r.info.lookup key := by
  rw [processFailedSchedulingAttemptEvent_eq]
  exact AList.lookup_insert_ne h

/-- C20: `onDemandCreated`, `onDemandFulfilled`,
`processFailedSchedulingAttemptEvent` and `onPodDeleted` change at most the
record of one key: the demand namespace with the name of the pod of the
demand for the two demand handlers, the key of the event for a failure
event, the namespace and name of the pod for a deletion.  Under every other
key the record, or its absence, is the same after the call as before; an
object that is no demand, or holds no pod, changes no key at all. -/
theorem handlers_change_one_key (ext : Externals) (r : wasteMetricsReporter)
    (key : podKey) :
    (∀ demand : Demand, key ≠ podKey.mk demand.Namespace (ext.PodName demand) →
        (onDemandCreated ext r (Obj.demand demand)).info.lookup key = r.info.lookup key) ∧
      (∀ obj : Obj, (∀ demand : Demand, obj ≠ Obj.demand demand) →
        (onDemandCreated ext r obj).info.lookup key = r.info.lookup key) ∧
      (∀ (demand : Demand) (now : Time),
        key ≠ podKey.mk demand.Namespace (ext.PodName demand) →
        (onDemandFulfilled ext r demand now).info.lookup key = r.info.lookup key) ∧
      (∀ event : podFailedSchedulingAttempt, key ≠ event.podKey →
        (processFailedSchedulingAttemptEvent r event).info.lookup key = r.info.lookup key) ∧
      (∀ (obj : Obj) (pod : Pod), ext.GetPodFromObjectOrTombstone obj = some pod →
        key ≠ podKey.mk pod.Namespace pod.Name →
        (onPodDeleted ext r obj).info.lookup key = r.info.lookup key) ∧
      (∀ obj : Obj, ext.GetPodFromObjectOrTombstone obj = none →
        (onPodDeleted ext r obj).info.lookup key = r.info.lookup key) := by
  refine ⟨fun demand h => onDemandCreated_lookup_ne ext r demand key h, ?_,
    fun demand now h => onDemandFulfilled_lookup_ne ext r demand now key h,
    fun event h => processFailedSchedulingAttemptEvent_lookup_ne r event key h, ?_, ?_⟩
  · intro obj hobj
    cases obj with
    | demand d => exact absurd rfl (hobj d)
    | pod p => simp [onDemandCreated]
    | tombstone o => simp [onDemandCreated]
    | other s => simp [onDemandCreated]
  · intro obj pod hobj h
    rw [onPodDeleted_of_pod ext r obj pod hobj]
    exact AList.lookup_erase_ne h
  · intro obj hobj
    simp [onPodDeleted, hobj]

/-! ## The channel of failed attempts -/

theorem cleanupMetricCacheStep_failedSchedulingAttempts (now : podKey → Time)
    (r : wasteMetricsReporter) (entry : Sigma (fun _ : podKey => schedulingMetricInfo)) :
    (cleanupMetricCacheStep now r entry).failedSchedulingAttempts =
      r.failedSchedulingAttempts := by
  unfold cleanupMetricCacheStep
  simp only []
  split_ifs <;> rfl

theorem cleanupMetricCache_foldl_failedSchedulingAttempts (now : podKey → Time)
    (entries : List (Sigma (fun _ : podKey => schedulingMetricInfo)))
    (r : wasteMetricsReporter) :
    (entries.foldl (cleanupMetricCacheStep now) r).failedSchedulingAttempts =
      r.failedSchedulingAttempts := by
  induction entries generalizing r with
  | nil => rfl
  | cons entry rest ih =>
    rw [List.foldl_cons, ih, cleanupMetricCacheStep_failedSchedulingAttempts]

theorem onDemandCreated_failedSchedulingAttempts (ext : Externals)
    (r : wasteMetricsReporter) (obj : Obj) :
    (onDemandCreated ext r obj).failedSchedulingAttempts = r.failedSchedulingAttempts := by
  cases obj with
  | demand d =>
    cases hl : r.info.lookup (podKey.mk d.Namespace (ext.PodName d))
    · simp [onDemandCreated, get_of_lookup_none hl]
    · simp [onDemandCreated, get_of_lookup_some hl]
  | pod p => simp [onDemandCreated]
  | tombstone o => simp [onDemandCreated]
  | other s => simp [onDemandCreated]

theorem onDemandFulfilled_failedSchedulingAttempts (ext : Externals)
    (r : wasteMetricsReporter) (demand : Demand) (now : Time) :
    (onDemandFulfilled ext r demand now).failedSchedulingAttempts =
      r.failedSchedulingAttempts := by
  cases hl : r.info.lookup (podKey.mk demand.Namespace (ext.PodName demand))
  · simp [onDemandFulfilled, get_of_lookup_none hl]
  · simp [onDemandFulfilled, get_of_lookup_some hl]

theorem onPodDeleted_failedSchedulingAttempts (ext : Externals)
    (r : wasteMetricsReporter) (obj : Obj) :
    (onPodDeleted ext r obj).failedSchedulingAttempts = r.failedSchedulingAttempts := by
  cases hobj : ext.GetPodFromObjectOrTombstone obj <;> simp [onPodDeleted, hobj]

theorem MarkFailedSchedulingAttempt_length_le (r : wasteMetricsReporter) (pod : Pod)
    (outcome : String) (now : Time)
    (h : r.failedSchedulingAttempts.length ≤ failedSchedulingAttemptsCapacity) :
    (MarkFailedSchedulingAttempt r pod outcome now).failedSchedulingAttempts.length ≤
      failedSchedulingAttemptsCapacity := by
  unfold MarkFailedSchedulingAttempt
  simp only []
  split_ifs with hlt
  · simp only [List.length_append, List.length_singleton]
    omega
  · exact h

/-- No event lets the channel hold more events than its capacity. -/
theorem step_length_le (ext : Externals) (r : wasteMetricsReporter) (event : Event)
    (h : r.failedSchedulingAttempts.length ≤ failedSchedulingAttemptsCapacity) :
    (step ext r event).reporter.failedSchedulingAttempts.length ≤
      failedSchedulingAttemptsCapacity := by
  cases event with
  | demandCreated obj =>
    simp only [step, Completion.reporter, onDemandCreated_failedSchedulingAttempts]
    exact h
  | demandFulfilled demand now =>
    simp only [step, Completion.reporter, onDemandFulfilled_failedSchedulingAttempts]
    exact h
  | markFailedSchedulingAttempt pod outcome now =>
    exact MarkFailedSchedulingAttempt_length_le r pod outcome now h
  | consumeFailedSchedulingAttempt =>
    simp only [step, Completion.reporter, consumeFailedSchedulingAttempt]
    cases hq : r.failedSchedulingAttempts with
    | nil => simp only [hq]; exact Nat.zero_le _
    | cons event rest =>
      simp only [processFailedSchedulingAttemptEvent_eq]
      rw [hq] at h
      simp only [List.length_cons] at h
      omega
  | failedSchedulingAttempt event =>
    simp only [step, Completion.reporter, processFailedSchedulingAttemptEvent_eq]
    exact h
  | podScheduled pod now =>
    simp only [step, (onPodScheduled_frame ext r pod now).2.1]
    exact h
  | podDeleted obj =>
    simp only [step, Completion.reporter, onPodDeleted_failedSchedulingAttempts]
    exact h
  | cleanupTick now =>
    simp only [step, Completion.reporter, cleanupMetricCache,
      cleanupMetricCache_foldl_failedSchedulingAttempts]
    exact h

theorem run_length_le (ext : Externals) (events : List Event) (r : wasteMetricsReporter)
    (h : r.failedSchedulingAttempts.length ≤ failedSchedulingAttemptsCapacity) :
    (run ext r events).reporter.failedSchedulingAttempts.length ≤
      failedSchedulingAttemptsCapacity := by
  induction events generalizing r with
  | nil => exact h
  | cons event rest ih =>
    have hstep := step_length_le ext r event h
    unfold run
    cases hs : step ext r event with
    | returned r1 =>
      rw [hs] at hstep
      exact ih r1 hstep
    | panicked r1 =>
      rw [hs] at hstep
      exact hstep

/-- C12: with the channel as a first-in first-out buffer of capacity 100,
`MarkFailedSchedulingAttempt` is a total step that never waits.  With fewer
than 100 events buffered it appends the event made of the pod key, `now` and
the outcome at the tail and logs nothing; with exactly 100 buffered it leaves
the buffer as it is and logs exactly one warning that carries the pod
namespace, the pod name and the outcome.  It writes neither the store nor
the registry, it keeps a buffer of at most 100 events within that bound, and
in every execution that starts from a new reporter the buffer never holds
more than 100 events, also when the execution ends in a panic. -/
theorem MarkFailedSchedulingAttempt_bounded (r : wasteMetricsReporter) (pod : Pod)
    (outcome : String) (now : Time) :
    (r.failedSchedulingAttempts.length < 100 →
        (MarkFailedSchedulingAttempt r pod outcome now).failedSchedulingAttempts =
          r.failedSchedulingAttempts ++
            [{ podKey := podKey.mk pod.Namespace pod.Name,
               failedSchedulingAttemptInfo := failedSchedulingAttemptInfo.mk now outcome }] ∧
        (MarkFailedSchedulingAttempt r pod outcome now).logs = r.logs) ∧
      (r.failedSchedulingAttempts.length = 100 →
        (MarkFailedSchedulingAttempt r pod outcome now).failedSchedulingAttempts =
          r.failedSchedulingAttempts ∧
        (MarkFailedSchedulingAttempt r pod outcome now).logs =
          r.logs ++
            [{ level := Level.warn
               message :=
                 "Failed scheduling attempts channel full. Dropping event from waste scheduling reporter"
               params := [("podNamespace", ParamValue.str pod.Namespace),
                          ("Name", ParamValue.str pod.Name),
                          ("outcome", ParamValue.str outcome)] }]) ∧
      (MarkFailedSchedulingAttempt r pod outcome now).info = r.info ∧
      (MarkFailedSchedulingAttempt r pod outcome now).registry = r.registry ∧
      (r.failedSchedulingAttempts.length ≤ 100 →
        (MarkFailedSchedulingAttempt r pod outcome now).failedSchedulingAttempts.length
          ≤ 100) ∧
      (∀ (ext : Externals) (instanceGroupLabel : String) (events : List Event),
        (run ext (newReporter instanceGroupLabel) events).reporter.failedSchedulingAttempts.length
          ≤ 100) := by
  refine ⟨?_, ?_, ?_, ?_, ?_, ?_⟩
  · intro h
    simp [MarkFailedSchedulingAttempt, failedSchedulingAttemptsCapacity, h]
  · intro h
    simp [MarkFailedSchedulingAttempt, failedSchedulingAttemptsCapacity, h]
  · unfold MarkFailedSchedulingAttempt
    simp only []
    split_ifs <;> rfl
  · unfold MarkFailedSchedulingAttempt
    simp only []
    split_ifs <;> rfl
  · exact MarkFailedSchedulingAttempt_length_le r pod outcome now
  · intro ext instanceGroupLabel events
    exact run_length_le ext events (newReporter instanceGroupLabel) (Nat.zero_le _)

/-! ## The slow log -/

section LogFacts

variable (ext : Externals)

theorem one_minute : (1 * Minute : Int) = 60000000000 := by
  norm_num [Minute, Second]

theorem ten_minutes : (10 * Minute : Int) = 600000000000 := by
  norm_num [Minute, Second]

/-- Log after `onPodScheduled` for a pod without record or without
`demandCreationTime`. -/
theorem onPodScheduled_logs_no_demand (r : wasteMetricsReporter) (pod : Pod) (now : Time)
    (h : r.info.lookup (podKey.mk pod.Namespace pod.Name) = none ∨
      ∃ info, r.info.lookup (podKey.mk pod.Namespace pod.Name) = some info ∧
        info.demandCreationTime.IsZero = true) :
    (onPodScheduled ext r pod now).reporter.logs =
      r.logs ++ slowLogLines ext r.instanceGroupLabel pod
        { tag := Tag.mk (normalizeTag ext.schedulingWasteTypeTagName) "total-time-no-demand",
          slowLogThreshold := 600000000000 }
        (now.Sub pod.CreationTimestamp) := by
  rcases h with h | ⟨info, h, hz⟩
  · rw [onPodScheduled_of_lookup_none ext r pod now h]
    simp only [Completion.reporter, markAndSlowLog_logs, totalTimeNoDemand_eq, ten_minutes]
  · rw [onPodScheduled_of_no_creation ext r pod now info h hz]
    simp only [Completion.reporter, markAndSlowLog_logs, totalTimeNoDemand_eq, ten_minutes]

/-- Log after `onPodScheduled` for a record created and not fulfilled. -/
theorem onPodScheduled_logs_unfulfilled (r : wasteMetricsReporter) (pod : Pod) (now : Time)
    (info : schedulingMetricInfo)
    (h : r.info.lookup (podKey.mk pod.Namespace pod.Name) = some info)
    (hc : info.demandCreationTime.IsZero = false)
    (hf : info.demandFulfilledTime.IsZero = true) :
    (onPodScheduled ext r pod now).reporter.logs =
      r.logs ++ slowLogLines ext r.instanceGroupLabel pod
        { tag := Tag.mk (normalizeTag ext.schedulingWasteTypeTagName)
            "before-demand-creation",
          slowLogThreshold := 60000000000 }
        (info.demandCreationTime.Sub pod.CreationTimestamp) := by
  rw [onPodScheduled_of_unfulfilled ext r pod now info h hc hf]
  simp only [Completion.reporter, markAndSlowLog_logs, beforeDemandCreation_eq, one_minute]

/-- Log after `onPodScheduled` for a fulfilled record without failure after
the fulfilment. -/
theorem onPodScheduled_logs_no_failure (r : wasteMetricsReporter) (pod : Pod) (now : Time)
    (info : schedulingMetricInfo)
    (h : r.info.lookup (podKey.mk pod.Namespace pod.Name) = some info)
    (hc : info.demandCreationTime.IsZero = false)
    (hf : info.demandFulfilledTime.IsZero = false)
    (ha : info.lastFailedSchedulingAttemptInfo.attemptTime.IsZero = true ∨
      info.lastFailedSchedulingAttemptInfo.attemptTime.After info.demandFulfilledTime = false) :
    (onPodScheduled ext r pod now).reporter.logs =
      r.logs ++
        (slowLogLines ext r.instanceGroupLabel pod
            { tag := Tag.mk (normalizeTag ext.schedulingWasteTypeTagName)
                "before-demand-creation",
              slowLogThreshold := 60000000000 }
            (info.demandCreationTime.Sub pod.CreationTimestamp) ++
          slowLogLines ext r.instanceGroupLabel pod
            { tag := Tag.mk (normalizeTag ext.schedulingWasteTypeTagName)
                "after-demand-fulfilled-no-failures",
              slowLogThreshold := 60000000000 }
            (now.Sub info.demandFulfilledTime)) := by
  have ha2 : (!info.lastFailedSchedulingAttemptInfo.attemptTime.IsZero &&
      info.lastFailedSchedulingAttemptInfo.attemptTime.After info.demandFulfilledTime)
        = false := by
    rcases ha with ha | ha <;> simp [ha]
  rw [onPodScheduled_of_no_failure ext r pod now info h hc hf ha2]
  simp only [Completion.reporter, markAndSlowLog_logs, markAndSlowLog_instanceGroupLabel,
    beforeDemandCreation_eq, afterDemandFulfilledNoFailures_eq, one_minute,
    List.append_assoc]

/-- Log after `onPodScheduled` for a failure after the fulfilment whose tag
fits in 200 bytes. -/
theorem onPodScheduled_logs_failure (r : wasteMetricsReporter) (pod : Pod) (now : Time)
    (info : schedulingMetricInfo)
    (h : r.info.lookup (podKey.mk pod.Namespace pod.Name) = some info)
    (hc : info.demandCreationTime.IsZero = false)
    (hf : info.demandFulfilledTime.IsZero = false)
    (hz : info.lastFailedSchedulingAttemptInfo.attemptTime.IsZero = false)
    (ha : info.lastFailedSchedulingAttemptInfo.attemptTime.After info.demandFulfilledTime
      = true)
    (hfit : ext.schedulingWasteTypeTagName.utf8ByteSize + 1 +
      ("after-demand-fulfilled-failure-" ++
        info.lastFailedSchedulingAttemptInfo.attemptOutcome).utf8ByteSize ≤ 200) :
    (onPodScheduled ext r pod now).reporter.logs =
      r.logs ++
        (slowLogLines ext r.instanceGroupLabel pod
            { tag := Tag.mk (normalizeTag ext.schedulingWasteTypeTagName)
                "before-demand-creation",
              slowLogThreshold := 60000000000 }
            (info.demandCreationTime.Sub pod.CreationTimestamp) ++
          slowLogLines ext r.instanceGroupLabel pod
            { tag := Tag.mk (normalizeTag ext.schedulingWasteTypeTagName)
                ("after-demand-fulfilled-failure-" ++
                  normalizeTag info.lastFailedSchedulingAttemptInfo.attemptOutcome),
              slowLogThreshold := 60000000000 }
            (info.lastFailedSchedulingAttemptInfo.attemptTime.Sub info.demandFulfilledTime) ++
          slowLogLines ext r.instanceGroupLabel pod
            { tag := Tag.mk (normalizeTag ext.schedulingWasteTypeTagName)
                "after-demand-fulfilled-last-failure",
              slowLogThreshold := 60000000000 }
            (now.Sub info.lastFailedSchedulingAttemptInfo.attemptTime)) := by
  rw [onPodScheduled_of_failure ext r pod now info _ h hc hf hz ha
    (getTagInfoForFailureAfterDemandFulfilled_of_fits ext _ hfit)]
  simp only [Completion.reporter, markAndSlowLog_logs, markAndSlowLog_instanceGroupLabel,
    beforeDemandCreation_eq, afterDemandFulfilledLastFailure_eq, one_minute,
    List.append_assoc]

/-- Log after `onPodScheduled` for a failure after the fulfilment whose tag
does not fit: the handler panics after the first `markAndSlowLog`. -/
theorem onPodScheduled_logs_failure_panic (r : wasteMetricsReporter) (pod : Pod)
    (now : Time) (info : schedulingMetricInfo)
    (h : r.info.lookup (podKey.mk pod.Namespace pod.Name) = some info)
    (hc : info.demandCreationTime.IsZero = false)
    (hf : info.demandFulfilledTime.IsZero = false)
    (hz : info.lastFailedSchedulingAttemptInfo.attemptTime.IsZero = false)
    (ha : info.lastFailedSchedulingAttemptInfo.attemptTime.After info.demandFulfilledTime
      = true)
    (hfit : 200 < ext.schedulingWasteTypeTagName.utf8ByteSize + 1 +
      ("after-demand-fulfilled-failure-" ++
        info.lastFailedSchedulingAttemptInfo.attemptOutcome).utf8ByteSize) :
    (onPodScheduled ext r pod now).reporter.logs =
      r.logs ++
        slowLogLines ext r.instanceGroupLabel pod
          { tag := Tag.mk (normalizeTag ext.schedulingWasteTypeTagName)
              "before-demand-creation",
            slowLogThreshold := 60000000000 }
          (info.demandCreationTime.Sub pod.CreationTimestamp) := by
  rw [onPodScheduled_of_failure_panic ext r pod now info h hc hf hz ha
    (getTagInfoForFailureAfterDemandFulfilled_of_not_fits ext _ hfit)]
  simp only [Completion.reporter, markAndSlowLog_logs, beforeDemandCreation_eq, one_minute]

end LogFacts

/-- C13: for every sample `onPodScheduled` produces, `markAndSlowLog` writes
the line "pod wait time is above threshold" exactly when the duration is
strictly greater than the threshold of the bucket, and makes the two
registry updates in both cases.  The first three conjuncts say so of
`markAndSlowLog` and of the lines `slowLogLines` it writes, for any tag and
threshold.  The others give the log after `onPodScheduled` on each of its
paths, with the threshold each bucket is passed: 10 minutes
(600 000 000 000 ns) for `total-time-no-demand`, and 1 minute
(60 000 000 000 ns) for `before-demand-creation`,
`after-demand-fulfilled-no-failures`, `after-demand-fulfilled-last-failure`
and the failure tag of every outcome. -/
theorem onPodScheduled_slow_log (ext : Externals) (r : wasteMetricsReporter) (pod : Pod)
    (now : Time) :
    (∀ (q : wasteMetricsReporter) (tag : tagInfo) (duration : Int),
        (markAndSlowLog ext q pod tag duration).logs =
            q.logs ++ slowLogLines ext q.instanceGroupLabel pod tag duration ∧
          (markAndSlowLog ext q pod tag duration).registry =
            q.registry ++ sampleUpdates ext q.instanceGroupLabel pod tag.tag duration) ∧
      (∀ (label : String) (tag : tagInfo) (duration : Int),
        tag.slowLogThreshold < duration →
        slowLogLines ext label pod tag duration =
          [{ level := Level.info
             message := "pod wait time is above threshold"
             params :=
               [("podNamespace", ParamValue.str pod.Namespace),
                ("podName", ParamValue.str pod.Name),
                ("instanceGroup", ParamValue.str
                  (ext.FindInstanceGroupFromPodSpec pod.Spec label).1),
                ("waitType", ParamValue.str tag.tag.value),
                ("duration", ParamValue.dur duration)] }]) ∧
      (∀ (label : String) (tag : tagInfo) (duration : Int),
        duration ≤ tag.slowLogThreshold → slowLogLines ext label pod tag duration = []) ∧
      ((r.info.lookup (podKey.mk pod.Namespace pod.Name) = none ∨
          ∃ info, r.info.lookup (podKey.mk pod.Namespace pod.Name) = some info ∧
            info.demandCreationTime.IsZero = true) →
        (onPodScheduled ext r pod now).reporter.logs =
          r.logs ++ slowLogLines ext r.instanceGroupLabel pod
            { tag := Tag.mk (normalizeTag ext.schedulingWasteTypeTagName)
                "total-time-no-demand",
              slowLogThreshold := 600000000000 }
            (now.Sub pod.CreationTimestamp)) ∧
      (∀ info : schedulingMetricInfo,
        r.info.lookup (podKey.mk pod.Namespace pod.Name) = some info →
        info.demandCreationTime.IsZero = false →
        info.demandFulfilledTime.IsZero = true →
        (onPodScheduled ext r pod now).reporter.logs =
          r.logs ++ slowLogLines ext r.instanceGroupLabel pod
            { tag := Tag.mk (normalizeTag ext.schedulingWasteTypeTagName)
                "before-demand-creation",
              slowLogThreshold := 60000000000 }
            (info.demandCreationTime.Sub pod.CreationTimestamp)) ∧
      (∀ info : schedulingMetricInfo,
        r.info.lookup (podKey.mk pod.Namespace pod.Name) = some info →
        info.demandCreationTime.IsZero = false →
        info.demandFulfilledTime.IsZero = false →
        (info.lastFailedSchedulingAttemptInfo.attemptTime.IsZero = true ∨
          info.lastFailedSchedulingAttemptInfo.attemptTime.After info.demandFulfilledTime
            = false) →
        (onPodScheduled ext r pod now).reporter.logs =
          r.logs ++
            (slowLogLines ext r.instanceGroupLabel pod
                { tag := Tag.mk (normalizeTag ext.schedulingWasteTypeTagName)
                    "before-demand-creation",
                  slowLogThreshold := 60000000000 }
                (info.demandCreationTime.Sub pod.CreationTimestamp) ++
              slowLogLines ext r.instanceGroupLabel pod
                { tag := Tag.mk (normalizeTag ext.schedulingWasteTypeTagName)
                    "after-demand-fulfilled-no-failures",
                  slowLogThreshold := 60000000000 }
                (now.Sub info.demandFulfilledTime))) ∧
      (∀ info : schedulingMetricInfo,
        r.info.lookup (podKey.mk pod.Namespace pod.Name) = some info →
        info.demandCreationTime.IsZero = false →
        info.demandFulfilledTime.IsZero = false →
        info.lastFailedSchedulingAttemptInfo.attemptTime.IsZero = false →
        info.lastFailedSchedulingAttemptInfo.attemptTime.After info.demandFulfilledTime
          = true →
        ext.schedulingWasteTypeTagName.utf8ByteSize + 1 +
          ("after-demand-fulfilled-failure-" ++
            info.lastFailedSchedulingAttemptInfo.attemptOutcome).utf8ByteSize ≤ 200 →
        (onPodScheduled ext r pod now).reporter.logs =
          r.logs ++
            (slowLogLines ext r.instanceGroupLabel pod
                { tag := Tag.mk (normalizeTag ext.schedulingWasteTypeTagName)
                    "before-demand-creation",
                  slowLogThreshold := 60000000000 }
                (info.demandCreationTime.Sub pod.CreationTimestamp) ++
              slowLogLines ext r.instanceGroupLabel pod
                { tag := Tag.mk (normalizeTag ext.schedulingWasteTypeTagName)
                    ("after-demand-fulfilled-failure-" ++
                      normalizeTag info.lastFailedSchedulingAttemptInfo.attemptOutcome),
                  slowLogThreshold := 60000000000 }
                (info.lastFailedSchedulingAttemptInfo.attemptTime.Sub
                  info.demandFulfilledTime) ++
              slowLogLines ext r.instanceGroupLabel pod
                { tag := Tag.mk (normalizeTag ext.schedulingWasteTypeTagName)
                    "after-demand-fulfilled-last-failure",
                  slowLogThreshold := 60000000000 }
                (now.Sub info.lastFailedSchedulingAttemptInfo.attemptTime))) ∧
      (∀ info : schedulingMetricInfo,
        r.info.lookup (podKey.mk pod.Namespace pod.Name) = some info →
        info.demandCreationTime.IsZero = false →
        info.demandFulfilledTime.IsZero = false →
        info.lastFailedSchedulingAttemptInfo.attemptTime.IsZero = false →
        info.lastFailedSchedulingAttemptInfo.attemptTime.After info.demandFulfilledTime
          = true →
        200 < ext.schedulingWasteTypeTagName.utf8ByteSize + 1 +
          ("after-demand-fulfilled-failure-" ++
            info.lastFailedSchedulingAttemptInfo.attemptOutcome).utf8ByteSize →
        (onPodScheduled ext r pod now).reporter.logs =
          r.logs ++
            slowLogLines ext r.instanceGroupLabel pod
              { tag := Tag.mk (normalizeTag ext.schedulingWasteTypeTagName)
                  "before-demand-creation",
                slowLogThreshold := 60000000000 }
              (info.demandCreationTime.Sub pod.CreationTimestamp)) := by
  refine ⟨fun q tag duration =>
      ⟨markAndSlowLog_logs ext q pod tag duration,
        markAndSlowLog_registry ext q pod tag duration⟩,
    ?_, ?_, onPodScheduled_logs_no_demand ext r pod now,
    fun info h hc hf => onPodScheduled_logs_unfulfilled ext r pod now info h hc hf,
    fun info h hc hf ha => onPodScheduled_logs_no_failure ext r pod now info h hc hf ha,
    fun info h hc hf hz ha hfit =>
      onPodScheduled_logs_failure ext r pod now info h hc hf hz ha hfit,
    fun info h hc hf hz ha hfit =>
      onPodScheduled_logs_failure_panic ext r pod now info h hc hf hz ha hfit⟩
  · intro label tag duration h
    simp [slowLogLines, h, Tag.Value]
  · intro label tag duration h
    simp [slowLogLines, not_lt.mpr h]

/-! ## Buckets of one scheduled event -/

/-- C14, as stated, fails: for a pod whose demand was fulfilled and that had
no failure afterwards, `onPodScheduled` emits a `before-demand-creation`
sample and an `after-demand-fulfilled-no-failures` sample, so the updates of
one scheduled event do not all carry the same waste-type tag. -/
theorem onPodScheduled_single_bucket_counterexample :
    (onPodScheduled Example.externals (Example.reporterWith Example.fulfilledNoFailureAfter)
        Example.pod (Example.t0.Add (3 * Minute))).reporter.registry =
      sampleUpdates Example.externals "instance-group" Example.pod
          (Tag.mk "wastetype" "before-demand-creation") 0 ++
        sampleUpdates Example.externals "instance-group" Example.pod
          (Tag.mk "wastetype" "after-demand-fulfilled-no-failures") 60000000000 ∧
      ¬ (∀ u ∈ (onPodScheduled Example.externals
            (Example.reporterWith Example.fulfilledNoFailureAfter)
            Example.pod (Example.t0.Add (3 * Minute))).reporter.registry,
          ∀ v ∈ (onPodScheduled Example.externals
            (Example.reporterWith Example.fulfilledNoFailureAfter)
            Example.pod (Example.t0.Add (3 * Minute))).reporter.registry,
          u.wasteTag = v.wasteTag) := by
  decide

/-- C14, amended: for every pod, store and observation time, `onPodScheduled`
emits one, two or three samples, no two of them with the same waste-type
tag.  It returns having added a `total-time-no-demand` sample alone; or it
adds a `before-demand-creation` sample alone, which is the case when it
returns for an unfulfilled demand and when it panics because the failure tag
does not fit in the 200 bytes of the tag library; or it returns having added
a `before-demand-creation` sample and then an
`after-demand-fulfilled-no-failures` sample; or it returns having added a
`before-demand-creation` sample, then a sample whose tag value is
`after-demand-fulfilled-failure-` followed by the normalised outcome, and an
`after-demand-fulfilled-last-failure` sample.  It panics in no other case. -/
theorem onPodScheduled_buckets (ext : Externals) (r : wasteMetricsReporter) (pod : Pod)
    (now : Time) :
    (((onPodScheduled ext r pod now).isPanic = false ∧
        ∃ d : Int, (onPodScheduled ext r pod now).reporter.registry =
          r.registry ++ sampleUpdates ext r.instanceGroupLabel pod
            (Tag.mk (normalizeTag ext.schedulingWasteTypeTagName) "total-time-no-demand") d) ∨
      (∃ d : Int, (onPodScheduled ext r pod now).reporter.registry =
          r.registry ++ sampleUpdates ext r.instanceGroupLabel pod
            (Tag.mk (normalizeTag ext.schedulingWasteTypeTagName) "before-demand-creation")
            d) ∨
      ((onPodScheduled ext r pod now).isPanic = false ∧
        ∃ d1 d2 : Int, (onPodScheduled ext r pod now).reporter.registry =
          r.registry ++
            (sampleUpdates ext r.instanceGroupLabel pod
                (Tag.mk (normalizeTag ext.schedulingWasteTypeTagName)
                  "before-demand-creation") d1 ++
              sampleUpdates ext r.instanceGroupLabel pod
                (Tag.mk (normalizeTag ext.schedulingWasteTypeTagName)
                  "after-demand-fulfilled-no-failures") d2)) ∨
      ((onPodScheduled ext r pod now).isPanic = false ∧
        ∃ (outcome : String) (d1 d2 d3 : Int),
          (onPodScheduled ext r pod now).reporter.registry =
            r.registry ++
              (sampleUpdates ext r.instanceGroupLabel pod
                  (Tag.mk (normalizeTag ext.schedulingWasteTypeTagName)
                    "before-demand-creation") d1 ++
                sampleUpdates ext r.instanceGroupLabel pod
                  (Tag.mk (normalizeTag ext.schedulingWasteTypeTagName)
                    ("after-demand-fulfilled-failure-" ++ normalizeTag outcome)) d2 ++
                sampleUpdates ext r.instanceGroupLabel pod
                  (Tag.mk (normalizeTag ext.schedulingWasteTypeTagName)
                    "after-demand-fulfilled-last-failure") d3))) ∧
      Tag.mk (normalizeTag ext.schedulingWasteTypeTagName) "before-demand-creation" ≠
        Tag.mk (normalizeTag ext.schedulingWasteTypeTagName)
          "after-demand-fulfilled-no-failures" ∧
      Tag.mk (normalizeTag ext.schedulingWasteTypeTagName) "before-demand-creation" ≠
        Tag.mk (normalizeTag ext.schedulingWasteTypeTagName)
          "after-demand-fulfilled-last-failure" ∧
      (∀ suffix : String,
        Tag.mk (normalizeTag ext.schedulingWasteTypeTagName)
            ("after-demand-fulfilled-failure-" ++ suffix) ≠
          Tag.mk (normalizeTag ext.schedulingWasteTypeTagName) "before-demand-creation" ∧
        Tag.mk (normalizeTag ext.schedulingWasteTypeTagName)
            ("after-demand-fulfilled-failure-" ++ suffix) ≠
          Tag.mk (normalizeTag ext.schedulingWasteTypeTagName)
            "after-demand-fulfilled-last-failure") := by
  refine ⟨?_, by simp, by simp, fun suffix =>
    ⟨failureTag_ne_beforeDemandCreation _ suffix, failureTag_ne_lastFailure _ suffix⟩⟩
  cases hl : r.info.lookup (podKey.mk pod.Namespace pod.Name) with
  | none =>
    obtain ⟨h1, h2⟩ := onPodScheduled_registry_of_lookup_none ext r pod now hl
    exact Or.inl ⟨h2, _, h1⟩
  | some info =>
    cases hc : info.demandCreationTime.IsZero with
    | true =>
      refine Or.inl ?_
      rw [onPodScheduled_of_no_creation ext r pod now info hl hc]
      refine ⟨rfl, now.Sub pod.CreationTimestamp, ?_⟩
      simp [Completion.reporter, markAndSlowLog_registry, totalTimeNoDemand_eq]
    | false =>
      cases hf : info.demandFulfilledTime.IsZero with
      | true =>
        refine Or.inr (Or.inl ⟨info.demandCreationTime.Sub pod.CreationTimestamp, ?_⟩)
        rw [onPodScheduled_of_unfulfilled ext r pod now info hl hc hf]
        simp [Completion.reporter, markAndSlowLog_registry, beforeDemandCreation_eq]
      | false =>
        cases ha : (!info.lastFailedSchedulingAttemptInfo.attemptTime.IsZero &&
            info.lastFailedSchedulingAttemptInfo.attemptTime.After info.demandFulfilledTime)
            with
        | false =>
          obtain ⟨h1, h2⟩ := onPodScheduled_registry_no_failure ext r pod now info hl hc hf ha
          exact Or.inr (Or.inr (Or.inl ⟨h2, _, _, h1⟩))
        | true =>
          simp only [Bool.and_eq_true, Bool.not_eq_true'] at ha
          by_cases hfit : ext.schedulingWasteTypeTagName.utf8ByteSize + 1 +
              ("after-demand-fulfilled-failure-" ++
                info.lastFailedSchedulingAttemptInfo.attemptOutcome).utf8ByteSize ≤ 200
          · obtain ⟨h1, h2⟩ :=
              onPodScheduled_registry_failure ext r pod now info hl hc hf ha.1 ha.2 hfit
            exact Or.inr (Or.inr (Or.inr ⟨h2, _, _, _, _, h1⟩))
          · obtain ⟨h1, _⟩ := onPodScheduled_registry_failure_panic ext r pod now info hl hc
              hf ha.1 ha.2 (by omega)
            exact Or.inr (Or.inl ⟨_, h1⟩)

/-! ## Fields that stay set -/

/-- C15, as stated, fails.  `onDemandCreated` for the demand of a pod whose
record is fulfilled leaves a record whose `demandFulfilledTime` is unset; and
`onDemandFulfilled` for a demand object without creation timestamp leaves a
record whose `demandCreationTime` is unset although it was set before. -/
theorem record_fields_stay_set_counterexample :
    ((Example.reporterWith Example.fulfilledThenFailure).info.lookup Example.key =
          some Example.fulfilledThenFailure ∧
        Example.fulfilledThenFailure.demandFulfilledTime.IsZero = false ∧
        ((onDemandCreated Example.externals
            (Example.reporterWith Example.fulfilledThenFailure)
            (Obj.demand Example.demand)).info.lookup Example.key).map
          (fun info => info.demandFulfilledTime.IsZero) = some true) ∧
      ((Example.reporterWith Example.createdOnly).info.lookup Example.key =
          some Example.createdOnly ∧
        Example.createdOnly.demandCreationTime.IsZero = false ∧
        ((onDemandFulfilled Example.externals (Example.reporterWith Example.createdOnly)
            Example.unstampedDemand (Example.t0.Add (1 * Minute))).info.lookup
              Example.key).map
          (fun info => info.demandCreationTime.IsZero) = some true) := by
  decide

/-- C15, amended: `onDemandFulfilled` for a demand whose creation timestamp is
set, at a clock value that is set, leaves `demandCreationTime` and
`demandFulfilledTime` set and the last failed attempt as it was;
`processFailedSchedulingAttemptEvent` for an event whose attempt time is set
leaves the last failed attempt set and the two demand times as they were;
`onDemandCreated` for a demand whose creation timestamp is set leaves
`demandCreationTime` set and the last failed attempt as it was, and leaves
`demandFulfilledTime` unset. -/
theorem record_fields_stay_set (ext : Externals) (r : wasteMetricsReporter) :
    (∀ (demand : Demand) (now : Time) (info : schedulingMetricInfo),
        demand.CreationTimestamp.IsZero = false → now.IsZero = false →
        r.info.lookup (podKey.mk demand.Namespace (ext.PodName demand)) = some info →
        ∃ after : schedulingMetricInfo,
          (onDemandFulfilled ext r demand now).info.lookup
              (podKey.mk demand.Namespace (ext.PodName demand)) = some after ∧
            after.demandCreationTime.IsZero = false ∧
            after.demandFulfilledTime.IsZero = false ∧
            after.lastFailedSchedulingAttemptInfo = info.lastFailedSchedulingAttemptInfo) ∧
      (∀ (event : podFailedSchedulingAttempt) (info : schedulingMetricInfo),
        event.failedSchedulingAttemptInfo.attemptTime.IsZero = false →
        r.info.lookup event.podKey = some info →
        ∃ after : schedulingMetricInfo,
          (processFailedSchedulingAttemptEvent r event).info.lookup event.podKey =
              some after ∧
            after.lastFailedSchedulingAttemptInfo.attemptTime.IsZero = false ∧
            after.demandCreationTime = info.demandCreationTime ∧
            after.demandFulfilledTime = info.demandFulfilledTime) ∧
      (∀ (demand : Demand) (info : schedulingMetricInfo),
        demand.CreationTimestamp.IsZero = false →
        r.info.lookup (podKey.mk demand.Namespace (ext.PodName demand)) = some info →
        ∃ after : schedulingMetricInfo,
          (onDemandCreated ext r (Obj.demand demand)).info.lookup
              (podKey.mk demand.Namespace (ext.PodName demand)) = some after ∧
            after.demandCreationTime.IsZero = false ∧
            after.lastFailedSchedulingAttemptInfo = info.lastFailedSchedulingAttemptInfo ∧
            after.demandFulfilledTime.IsZero = true) := by
  refine ⟨?_, ?_, ?_⟩
  · intro demand now info hd hn h
    refine ⟨_, onDemandFulfilled_lookup ext r demand now, hd, hn, ?_⟩
    rw [get_fst_of_lookup_some h]
  · intro event info he h
    refine ⟨_, processFailedSchedulingAttemptEvent_lookup r event, he, ?_, ?_⟩
    · rw [get_fst_of_lookup_some h]
    · rw [get_fst_of_lookup_some h]
  · intro demand info hd h
    refine ⟨_, onDemandCreated_lookup ext r demand, hd, ?_, rfl⟩
    rw [get_fst_of_lookup_some h]

/-! ## Reachable stores -/

theorem onDemandCreated_eq (ext : Externals) (r : wasteMetricsReporter) (demand : Demand) :
    onDemandCreated ext r (Obj.demand demand) =
      { r with info := AList.insert (podKey.mk demand.Namespace (ext.PodName demand)) (schedulingMetricInfo.mk
            (r.info.get (podKey.mk demand.Namespace
              (ext.PodName demand))).1.lastFailedSchedulingAttemptInfo
            Time.zero demand.CreationTimestamp) r.info } := by
  cases hl : r.info.lookup (podKey.mk demand.Namespace (ext.PodName demand))
  · simp [onDemandCreated, get_of_lookup_none hl, schedulingMetricInfo.zero]
  · simp [onDemandCreated, get_of_lookup_some hl]

theorem onDemandFulfilled_eq (ext : Externals) (r : wasteMetricsReporter) (demand : Demand)
    (now : Time) :
    onDemandFulfilled ext r demand now =
      { r with info := AList.insert (podKey.mk demand.Namespace (ext.PodName demand)) (schedulingMetricInfo.mk
            (r.info.get (podKey.mk demand.Namespace
              (ext.PodName demand))).1.lastFailedSchedulingAttemptInfo
            now demand.CreationTimestamp) r.info } := by
  cases hl : r.info.lookup (podKey.mk demand.Namespace (ext.PodName demand))
  · simp [onDemandFulfilled, get_of_lookup_none hl, schedulingMetricInfo.zero]
  · simp [onDemandFulfilled, get_of_lookup_some hl]

theorem fulfilledHaveCreation_insert (m : schedulingMetricInfoByPod) (key : podKey)
    (info : schedulingMetricInfo) (hm : m.fulfilledHaveCreation)
    (hinfo : info.demandFulfilledTime.IsZero = false →
      info.demandCreationTime.IsZero = false) :
    schedulingMetricInfoByPod.fulfilledHaveCreation (AList.insert key info m) := by
  intro key2 info2 hl hf
  by_cases hk : key2 = key
  · subst hk
    rw [AList.lookup_insert] at hl
    cases hl
    exact hinfo hf
  · rw [AList.lookup_insert_ne hk] at hl
    exact hm key2 info2 hl hf

theorem fulfilledHaveCreation_erase (m : schedulingMetricInfoByPod) (key : podKey)
    (hm : m.fulfilledHaveCreation) :
    schedulingMetricInfoByPod.fulfilledHaveCreation (AList.erase key m) := by
  intro key2 info2 hl hf
  by_cases hk : key2 = key
  · subst hk
    rw [AList.lookup_erase] at hl
    cases hl
  · rw [AList.lookup_erase_ne hk] at hl
    exact hm key2 info2 hl hf

theorem fulfilledHaveCreation_processFailedSchedulingAttemptEvent
    (r : wasteMetricsReporter) (event : podFailedSchedulingAttempt)
    (hr : r.info.fulfilledHaveCreation) :
    (processFailedSchedulingAttemptEvent r event).info.fulfilledHaveCreation := by
  rw [processFailedSchedulingAttemptEvent_eq]
  apply fulfilledHaveCreation_insert _ _ _ hr
  cases hl : r.info.lookup event.podKey with
  | none =>
    intro hf
    rw [get_fst_of_lookup_none hl] at hf
    simp [schedulingMetricInfo.zero, Time.zero, Time.IsZero] at hf
  | some info =>
    simp only [get_fst_of_lookup_some hl]
    exact hr _ _ hl

/-- An event whose demand has a creation timestamp keeps the property that
fulfilled records have a creation time. -/
theorem fulfilledHaveCreation_step (ext : Externals) (r : wasteMetricsReporter)
    (event : Event) (hr : r.info.fulfilledHaveCreation)
    (he : event.demandStamped = true) :
    (step ext r event).reporter.info.fulfilledHaveCreation := by
  cases event with
  | demandCreated obj =>
    cases obj with
    | demand d =>
      simp only [step, Completion.reporter, onDemandCreated_eq]
      exact fulfilledHaveCreation_insert _ _ _ hr
        (fun hf => by simp [Time.zero, Time.IsZero] at hf)
    | pod p => simpa [step, Completion.reporter, onDemandCreated] using hr
    | tombstone o => simpa [step, Completion.reporter, onDemandCreated] using hr
    | other s => simpa [step, Completion.reporter, onDemandCreated] using hr
  | demandFulfilled demand now =>
    simp only [step, Completion.reporter, onDemandFulfilled_eq]
    refine fulfilledHaveCreation_insert _ _ _ hr (fun _ => ?_)
    simpa [Event.demandStamped] using he
  | markFailedSchedulingAttempt pod outcome now =>
    have hinfo : (MarkFailedSchedulingAttempt r pod outcome now).info = r.info := by
      unfold MarkFailedSchedulingAttempt
      simp only []
      split_ifs <;> rfl
    simp only [step, Completion.reporter, hinfo]
    exact hr
  | consumeFailedSchedulingAttempt =>
    simp only [step, Completion.reporter, consumeFailedSchedulingAttempt]
    cases r.failedSchedulingAttempts with
    | nil => exact hr
    | cons event rest =>
      exact fulfilledHaveCreation_processFailedSchedulingAttemptEvent _ event hr
  | failedSchedulingAttempt event =>
    exact fulfilledHaveCreation_processFailedSchedulingAttemptEvent r event hr
  | podScheduled pod now =>
    simp only [step, (onPodScheduled_frame ext r pod now).1]
    exact hr
  | podDeleted obj =>
    cases hobj : ext.GetPodFromObjectOrTombstone obj with
    | none => simpa [step, Completion.reporter, onPodDeleted, hobj] using hr
    | some pod =>
      simp only [step, Completion.reporter, onPodDeleted_of_pod ext r obj pod hobj]
      exact fulfilledHaveCreation_erase _ _ hr
  | cleanupTick now =>
    intro key info hl hf
    simp only [step, Completion.reporter, cleanupMetricCache,
      cleanupMetricCache_foldl_lookup] at hl
    split_ifs at hl
    exact hr key info hl hf

theorem fulfilledHaveCreation_run (ext : Externals) (events : List Event)
    (r : wasteMetricsReporter) (hr : r.info.fulfilledHaveCreation)
    (he : ∀ event ∈ events, event.demandStamped = true) :
    (run ext r events).reporter.info.fulfilledHaveCreation := by
  induction events generalizing r with
  | nil => exact hr
  | cons event rest ih =>
    have hstep := fulfilledHaveCreation_step ext r event hr (he event (List.mem_cons_self _ _))
    unfold run
    cases hs : step ext r event with
    | returned r1 =>
      rw [hs] at hstep
      exact ih r1 hstep (fun e hmem => he e (List.mem_cons_of_mem _ hmem))
    | panicked r1 =>
      rw [hs] at hstep
      exact hstep

/-- Registry after `onPodScheduled` for a record whose two demand times are
set. -/
theorem onPodScheduled_registry_fulfilled (ext : Externals) (r : wasteMetricsReporter)
    (pod : Pod) (now : Time) (info : schedulingMetricInfo)
    (h : r.info.lookup (podKey.mk pod.Namespace pod.Name) = some info)
    (hc : info.demandCreationTime.IsZero = false)
    (hf : info.demandFulfilledTime.IsZero = false) :
    (onPodScheduled ext r pod now).reporter.registry =
      r.registry ++
        (sampleUpdates ext r.instanceGroupLabel pod
            (Tag.mk (normalizeTag ext.schedulingWasteTypeTagName) "before-demand-creation")
            (info.demandCreationTime.Sub pod.CreationTimestamp) ++
          if (!info.lastFailedSchedulingAttemptInfo.attemptTime.IsZero &&
              info.lastFailedSchedulingAttemptInfo.attemptTime.After
                info.demandFulfilledTime) = true then
            if ext.schedulingWasteTypeTagName.utf8ByteSize + 1 +
                ("after-demand-fulfilled-failure-" ++
                  info.lastFailedSchedulingAttemptInfo.attemptOutcome).utf8ByteSize ≤ 200 then
              sampleUpdates ext r.instanceGroupLabel pod
                  (Tag.mk (normalizeTag ext.schedulingWasteTypeTagName)
                    ("after-demand-fulfilled-failure-" ++
                      normalizeTag info.lastFailedSchedulingAttemptInfo.attemptOutcome))
                  (info.lastFailedSchedulingAttemptInfo.attemptTime.Sub
                    info.demandFulfilledTime) ++
                sampleUpdates ext r.instanceGroupLabel pod
                  (Tag.mk (normalizeTag ext.schedulingWasteTypeTagName)
                    "after-demand-fulfilled-last-failure")
                  (now.Sub info.lastFailedSchedulingAttemptInfo.attemptTime)
            else []
          else
            sampleUpdates ext r.instanceGroupLabel pod
              (Tag.mk (normalizeTag ext.schedulingWasteTypeTagName)
                "after-demand-fulfilled-no-failures")
              (now.Sub info.demandFulfilledTime)) ∧
      ((onPodScheduled ext r pod now).isPanic = true ↔
        (!info.lastFailedSchedulingAttemptInfo.attemptTime.IsZero &&
            info.lastFailedSchedulingAttemptInfo.attemptTime.After
              info.demandFulfilledTime) = true ∧
          200 < ext.schedulingWasteTypeTagName.utf8ByteSize + 1 +
            ("after-demand-fulfilled-failure-" ++
              info.lastFailedSchedulingAttemptInfo.attemptOutcome).utf8ByteSize) := by
  by_cases ha : (!info.lastFailedSchedulingAttemptInfo.attemptTime.IsZero &&
      info.lastFailedSchedulingAttemptInfo.attemptTime.After info.demandFulfilledTime) = true
  · rw [if_pos ha]
    have ha' := ha
    simp only [Bool.and_eq_true, Bool.not_eq_true'] at ha'
    by_cases hfit : ext.schedulingWasteTypeTagName.utf8ByteSize + 1 +
        ("after-demand-fulfilled-failure-" ++
          info.lastFailedSchedulingAttemptInfo.attemptOutcome).utf8ByteSize ≤ 200
    · rw [if_pos hfit]
      obtain ⟨h1, h2⟩ :=
        onPodScheduled_registry_failure ext r pod now info h hc hf ha'.1 ha'.2 hfit
      refine ⟨?_, ?_⟩
      · rw [h1]
        simp
      · rw [h2]
        constructor
        · intro e
          cases e
        · intro e
          omega
    · rw [if_neg hfit]
      obtain ⟨h1, h2⟩ := onPodScheduled_registry_failure_panic ext r pod now info h hc hf
        ha'.1 ha'.2 (by omega)
      refine ⟨?_, ?_⟩
      · rw [h1]
        simp
      · rw [h2]
        exact ⟨fun _ => ⟨ha, by omega⟩, fun _ => rfl⟩
  · rw [if_neg ha]
    have ha2 : (!info.lastFailedSchedulingAttemptInfo.attemptTime.IsZero &&
        info.lastFailedSchedulingAttemptInfo.attemptTime.After info.demandFulfilledTime)
          = false := by simpa using ha
    obtain ⟨h1, h2⟩ := onPodScheduled_registry_no_failure ext r pod now info h hc hf ha2
    refine ⟨h1, ?_⟩
    rw [h2]
    constructor
    · intro e
      cases e
    · intro e
      exact absurd e.1 ha

/-- C19: in every store reached from the new reporter by a sequence of
events of the handlers, the channel and the sweep in which every demand has
its creation timestamp set, a record whose `demandFulfilledTime` is set has
its `demandCreationTime` set.  So for a fulfilled record of such a store
`onPodScheduled` does not emit the `total-time-no-demand` sample: it emits
the `before-demand-creation` sample and goes on to the samples of the time
after fulfilment, which are the no-failures sample when the last failed
attempt is unset or not after the fulfilment, and otherwise the sample of
the failure, tagged with the normalised outcome, followed by the
last-failure sample; only when the failure tag does not fit in the 200 bytes
of the tag library does the handler panic while building it, and then it
has emitted the `before-demand-creation` sample alone. -/
theorem reachable_fulfilled_have_creation (ext : Externals) (instanceGroupLabel : String)
    (events : List Event) (hevents : ∀ event ∈ events, event.demandStamped = true) :
    (∀ (key : podKey) (info : schedulingMetricInfo),
        (run ext (newReporter instanceGroupLabel) events).reporter.info.lookup key =
          some info →
        info.demandFulfilledTime.IsZero = false →
        info.demandCreationTime.IsZero = false) ∧
      (∀ (pod : Pod) (now : Time) (info : schedulingMetricInfo),
        (run ext (newReporter instanceGroupLabel) events).reporter.info.lookup
            (podKey.mk pod.Namespace pod.Name) = some info →
        info.demandFulfilledTime.IsZero = false →
        (onPodScheduled ext (run ext (newReporter instanceGroupLabel) events).reporter pod
            now).reporter.registry =
          (run ext (newReporter instanceGroupLabel) events).reporter.registry ++
            (sampleUpdates ext
                (run ext (newReporter instanceGroupLabel) events).reporter.instanceGroupLabel
                pod
                (Tag.mk (normalizeTag ext.schedulingWasteTypeTagName)
                  "before-demand-creation")
                (info.demandCreationTime.Sub pod.CreationTimestamp) ++
              if (!info.lastFailedSchedulingAttemptInfo.attemptTime.IsZero &&
                  info.lastFailedSchedulingAttemptInfo.attemptTime.After
                    info.demandFulfilledTime) = true then
                if ext.schedulingWasteTypeTagName.utf8ByteSize + 1 +
                    ("after-demand-fulfilled-failure-" ++
                      info.lastFailedSchedulingAttemptInfo.attemptOutcome).utf8ByteSize
                      ≤ 200 then
                  sampleUpdates ext
                      (run ext (newReporter instanceGroupLabel)
                        events).reporter.instanceGroupLabel pod
                      (Tag.mk (normalizeTag ext.schedulingWasteTypeTagName)
                        ("after-demand-fulfilled-failure-" ++
                          normalizeTag info.lastFailedSchedulingAttemptInfo.attemptOutcome))
                      (info.lastFailedSchedulingAttemptInfo.attemptTime.Sub
                        info.demandFulfilledTime) ++
                    sampleUpdates ext
                      (run ext (newReporter instanceGroupLabel)
                        events).reporter.instanceGroupLabel pod
                      (Tag.mk (normalizeTag ext.schedulingWasteTypeTagName)
                        "after-demand-fulfilled-last-failure")
                      (now.Sub info.lastFailedSchedulingAttemptInfo.attemptTime)
                else []
              else
                sampleUpdates ext
                  (run ext (newReporter instanceGroupLabel)
                    events).reporter.instanceGroupLabel pod
                  (Tag.mk (normalizeTag ext.schedulingWasteTypeTagName)
                    "after-demand-fulfilled-no-failures")
                  (now.Sub info.demandFulfilledTime)) ∧
          ((onPodScheduled ext (run ext (newReporter instanceGroupLabel) events).reporter
              pod now).isPanic = true ↔
            (!info.lastFailedSchedulingAttemptInfo.attemptTime.IsZero &&
                info.lastFailedSchedulingAttemptInfo.attemptTime.After
                  info.demandFulfilledTime) = true ∧
              200 < ext.schedulingWasteTypeTagName.utf8ByteSize + 1 +
                ("after-demand-fulfilled-failure-" ++
                  info.lastFailedSchedulingAttemptInfo.attemptOutcome).utf8ByteSize)) := by
  have hinv :
      (run ext (newReporter instanceGroupLabel) events).reporter.info.fulfilledHaveCreation :=
    fulfilledHaveCreation_run ext events (newReporter instanceGroupLabel)
      (fun key info hl _ => by
        have hnone : (newReporter instanceGroupLabel).info.lookup key = none :=
          AList.lookup_empty _
        rw [hnone] at hl
        cases hl)
      hevents
  refine ⟨hinv, ?_⟩
  intro pod now info hl hf
  exact onPodScheduled_registry_fulfilled ext _ pod now info hl (hinv _ info hl hf) hf

/-- Instance of C19: after the example execution the record of the example
pod is fulfilled and has its creation time set. -/
theorem reachable_fulfilled_have_creation_witness :
    (∀ event ∈ Example.events, event.demandStamped = true) ∧
      ((run Example.externals (newReporter "instance-group")
          Example.events).reporter.info.lookup
            Example.key).map (fun info => info.demandFulfilledTime.IsZero) = some false ∧
      ((run Example.externals (newReporter "instance-group")
          Example.events).reporter.info.lookup
            Example.key).map (fun info => info.demandCreationTime.IsZero) = some false := by
  have hstamped : ∀ event ∈ Example.events, event.demandStamped = true := by
    intro event hmem
    simp only [Example.events, List.mem_cons, List.mem_singleton, List.not_mem_nil,
      or_false] at hmem
    rcases hmem with h | h | h | h | h | h | h | h <;> subst h <;> decide
  have w := reachable_fulfilled_have_creation Example.externals "instance-group"
    Example.events hstamped
  refine ⟨hstamped, by decide, ?_⟩
  have hl : (run Example.externals (newReporter "instance-group")
      Example.events).reporter.info.lookup
      Example.key = some ⟨⟨Example.t0.Add (2 * Minute + 10 * Second), "failure-fit"⟩,
        Example.t0.Add (5 * Minute), Example.t0⟩ := by decide
  rw [hl]
  exact congrArg some (w.1 Example.key _ hl (by decide))

end WasteMetrics
